import Mathlib

/-!
Shallow embedding of the AI-Resume-Analyzer core (src/ml_model.py and
src/nlp_processor.py) and proofs about the claims of its specification.

Modelling conventions:
* Python dicts that act as records become Lean structures; Python floats
  become rationals (the arithmetic of the scoring engine is exact decimal
  arithmetic at the precision the claims talk about).
* Python `round(x, 2)` (round-half-to-even) is modelled exactly on `ℚ`.
* Python set operations (`set(a) & set(b)`, `list(set(xs))`) are modelled
  by duplicate-erasing list operations; only their set-semantics
  (membership, cardinality) is used by any theorem.
* Regular-expression searches that the claims depend on (date ranges,
  year tokens, word-boundary skill matching, qualification levels,
  "N years experience") are implemented directly, character by character,
  following the concrete patterns of the source.  Library calls
  (hashlib, datetime) and the few regex helpers whose results no claim
  depends on (phone extraction, position-title/company/institution
  extraction, the two confidence-bonus regexes) are abstracted as fields
  of an `Env` record, and all theorems about them hold for every `Env`.
-/

namespace ResumeAnalyzer

set_option allowUnsafeReducibility true

attribute [local semireducible] Rat.add Rat.mul Rat.sub Rat.div Rat.neg Rat.inv Rat.normalize Rat.blt

/-- Containment of one character list in another. -/
def containsSub (pat : List Char) : List Char → Bool
  | [] => pat.isEmpty
  | c :: t => pat.isPrefixOf (c :: t) || containsSub pat t

/-- Python substring test `pat in text`. -/
def substrOf (pat text : String) : Bool := containsSub pat.toList text.toList

/-- Lookup in an association list modelling a Python dict (`d.get(k, default)`). -/
def lookupD {β : Type} (m : List (String × β)) (k : String) (d : β) : β :=
  match m.find? (fun p => p.1 == k) with
  | some p => p.2
  | none => d

/-- Python `\s` on the ASCII inputs of this program. -/
def isPySpace (c : Char) : Bool :=
  c = ' ' || c = '\t' || c = '\n' || c = '\r' || c = '\x0b' || c = '\x0c'

/-- Python `\w` word character (ASCII). -/
def isWordChar (c : Char) : Bool := c.isAlphanum || c = '_'

/-- Numeric value of a run of digit characters. -/
def natOfDigits (ds : List Char) : Nat :=
  ds.foldl (fun a c => a * 10 + (c.toNat - 48)) 0

/-!  Character-list based string helpers.  They model the Python string
operations (which index by code points) and, unlike several core `String`
functions, are structurally recursive, so closed evaluations reduce in the
kernel. -/

/-- Python `str.lower()`. -/
def strToLower (s : String) : String := String.mk (s.toList.map Char.toLower)

/-- Python `str.upper()`. -/
def strToUpper (s : String) : String := String.mk (s.toList.map Char.toUpper)

/-- Python slicing `s[:n]`. -/
def strTake (s : String) (n : Nat) : String := String.mk (s.toList.take n)

/-- Python `str.strip()`. -/
def strStrip (s : String) : String :=
  String.mk (((s.toList.dropWhile isPySpace).reverse.dropWhile isPySpace).reverse)

/-- Split a character list on a separator character (Python `str.split(sep)`). -/
def splitOnChar (sep : Char) : List Char → List (List Char)
  | [] => [[]]
  | c :: t =>
    let r := splitOnChar sep t
    if c = sep then [] :: r
    else
      match r with
      | h :: t2 => (c :: h) :: t2
      | [] => [[c]]

/-- Python `text.split('\n')`. -/
def strSplitLines (s : String) : List String :=
  (splitOnChar '\n' s.toList).map String.mk

/-- Python `sep.join(xs)`. -/
def strIntercalate (sep : String) : List String → String
  | [] => ""
  | [x] => x
  | x :: xs => x ++ sep ++ strIntercalate sep xs

/-- Python `s.replace('_', ' ')` (a single-character pattern). -/
def strReplaceUnderscore (s : String) : String :=
  String.mk (s.toList.map fun c => if c = '_' then ' ' else c)

/-- Decimal digits of a natural number (the fuel is always sufficient). -/
def natDigits : Nat → Nat → List Char
  | 0, _ => []
  | f + 1, n =>
    if n = 0 then []
    else natDigits f (n / 10) ++ [Char.ofNat (48 + n % 10)]

/-- Decimal rendering of a natural number. -/
def natToStr (n : Nat) : String :=
  if n = 0 then "0" else String.mk (natDigits n n)

/-- Decimal rendering of an integer. -/
def intToStr : ℤ → String
  | .ofNat n => natToStr n
  | .negSucc n => "-" ++ natToStr (n + 1)

/-- Floor of a rational, computed directly from the normalized fraction. -/
def qfloor (q : ℚ) : ℤ := q.num.fdiv q.den

/-- Python `round` on a rational: round half to even (banker's rounding). -/
def pyRoundInt (q : ℚ) : ℤ :=
  let n := qfloor q
  let f := q - n
  if f < 1/2 then n
  else if 1/2 < f then n + 1
  else if n % 2 = 0 then n else n + 1

/-- Python `round(x, 2)`. -/
def round2 (q : ℚ) : ℚ := (pyRoundInt (q * 100) : ℚ) / 100

/-- Python `list(set(a) & set(b))`, with first-occurrence order of `a`. -/
def setInter (a b : List String) : List String :=
  (a.filter fun x => b.contains x).eraseDups

/-- Python `list(set(a) - set(b))`, with first-occurrence order of `a`. -/
def setDiff (a b : List String) : List String :=
  (a.filter fun x => !(b.contains x)).eraseDups

/-- Deterministic rendering of a rational for report strings (stands in for
Python's numeric string formatting; it is a fixed pure function, which is all
the claims about report strings need — on the integer values the source
produces it agrees with Python's rendering of an `int`). -/
def reprRat (q : ℚ) : String :=
  if q.den = 1 then intToStr q.num
  else intToStr q.num ++ "/" ++ natToStr q.den

/-- Python `str.title()`: uppercase every letter that follows a non-letter,
lowercase the other letters. -/
def titlePyAux : Bool → List Char → List Char
  | _, [] => []
  | prevAlpha, c :: t =>
    let c2 := if c.isAlpha && !prevAlpha then c.toUpper
              else if c.isAlpha then c.toLower else c
    c2 :: titlePyAux c.isAlpha t

/-- Python `str.title()`. -/
def titlePy (s : String) : String := String.mk (titlePyAux false s.toList)

/-- Apostrophe character, used inside a few source string literals. -/
def apos : Char := Char.ofNat 39

/-!  ml_model.py : skill taxonomy used by `_extract_skills_with_context_advanced`. -/

/-- Skill categories of `AdvancedScoringModel._extract_skills_with_context_advanced`. -/
def skill_categories_ml : List (String × List String) := [
  ("programming_languages", ["python", "java", "javascript", "typescript", "c++", "c#", "go", "rust", "swift", "kotlin", "php", "ruby", "scala", "r", "matlab", "perl", "html", "css", "sass", "less", "sql"]),
  ("web_development", ["django", "flask", "fastapi", "spring", "express", "react", "angular", "vue", "svelte", "laravel", "ruby on rails", "asp.net", "node.js", "next.js", "nuxt.js"]),
  ("databases", ["mysql", "postgresql", "mongodb", "redis", "sqlite", "oracle", "sql server", "cassandra", "dynamodb", "elasticsearch"]),
  ("cloud_platforms", ["aws", "azure", "google cloud", "gcp", "docker", "kubernetes", "terraform", "ansible", "jenkins"]),
  ("data_science_ai", ["machine learning", "deep learning", "tensorflow", "pytorch", "keras", "scikit-learn", "pandas", "numpy", "matplotlib", "seaborn", "plotly", "tableau", "power bi"]),
  ("project_management", ["project management", "agile", "scrum", "kanban", "waterfall", "prince2", "pmp", "jira", "trello", "asana"]),
  ("business_analysis", ["business analysis", "requirements gathering", "user stories", "use cases", "process modeling", "bpmn", "uml"]),
  ("finance_accounting", ["financial analysis", "accounting", "bookkeeping", "financial modeling", "budgeting", "forecasting", "quickbooks", "xero"]),
  ("marketing_sales", ["digital marketing", "social media marketing", "seo", "sem", "google analytics", "google ads", "facebook ads", "content marketing"]),
  ("soft_skills", ["communication", "leadership", "teamwork", "problem solving", "critical thinking", "adaptability", "time management"]),
  ("healthcare", ["patient care", "medical terminology", "healthcare management", "clinical research"]),
  ("engineering", ["mechanical engineering", "electrical engineering", "civil engineering", "chemical engineering"]),
  ("manufacturing", ["lean manufacturing", "six sigma", "quality assurance", "production planning"])]

/-- `_extract_skills_with_context_advanced`: substring scan of the job text
over the taxonomy; `list(set(...))` modelled as duplicate erasure with
first-occurrence order. -/
def extract_skills_with_context_advanced (text : String) : List String :=
  let tl := strToLower text
  ((skill_categories_ml.map fun c => c.2.filter fun s => substrOf s tl).flatten).eraseDups

/-- One extracted skill entry (an element of `skills_by_category` lists). -/
structure SkillInfo where
  skill : String
  confidence : ℚ
  frequency : Nat
  category : String
deriving DecidableEq, Repr

/-- One entry of the `top_skills` list. -/
structure TopSkill where
  skill : String
  category : String
  score : ℚ
  frequency : Nat
  confidence : ℚ
deriving DecidableEq, Repr

/-- The dict produced by `extract_skills_comprehensive`. -/
structure SkillsData where
  skills_by_category : List (String × List SkillInfo)
  total_skills : Nat
  skill_diversity : Nat
  total_skill_occurrences : Nat
  top_skills : List TopSkill
  skill_categories_present : List String
deriving DecidableEq, Repr

/-- `_flatten_skills_advanced`: all skills of all categories whose confidence
exceeds 0.3. -/
def flatten_skills_advanced (d : SkillsData) : List String :=
  (d.skills_by_category.map fun c =>
    (c.2.filter fun si => (3 : ℚ)/10 < si.confidence).map (·.skill)).flatten

/-- Fixed adjacency table of `_find_related_skills_advanced`. -/
def skill_relationships : List (String × List String) := [
  ("python", ["django", "flask", "pandas", "numpy", "scikit-learn", "tensorflow", "keras"]),
  ("java", ["spring", "hibernate", "j2ee", "android", "microservices"]),
  ("javascript", ["react", "angular", "vue", "node.js", "typescript", "express"]),
  ("sql", ["mysql", "postgresql", "oracle", "sql server", "database design"]),
  ("aws", ["azure", "google cloud", "docker", "kubernetes", "terraform", "devops"]),
  ("machine learning", ["deep learning", "tensorflow", "pytorch", "neural networks", "data science"]),
  ("react", ["react native", "redux", "next.js", "frontend development"]),
  ("docker", ["kubernetes", "containerization", "microservices", "devops"]),
  ("project management", ["agile", "scrum", "kanban", "jira", "stakeholder management"]),
  ("financial analysis", ["accounting", "forecasting", "budgeting", "financial modeling"])]

/-- `_find_related_skills_advanced`: candidate skills related to a required
job skill through the adjacency table (a Python set, modelled deduplicated). -/
def find_related_skills_advanced (cand job : List String) : List String :=
  ((job.map fun js => (lookupD skill_relationships js []).filter fun r =>
      cand.contains r).flatten).eraseDups

/-- Per-category stats of `_analyze_skill_categories`. -/
structure CategoryStats where
  match_count : Nat
  total_skills : Nat
  match_percentage : ℚ
  matched_skills : List String
deriving DecidableEq, Repr

/-- `_analyze_skill_categories`. -/
def analyze_skill_categories (d : SkillsData) (job : List String) :
    List (String × CategoryStats) :=
  d.skills_by_category.map fun c =>
    let cskills := c.2.map (·.skill)
    let ms := setInter cskills job
    (c.1, { match_count := ms.length, total_skills := cskills.length,
            match_percentage :=
              if job ≠ [] then (ms.length : ℚ) / job.length * 100 else 0,
            matched_skills := ms })

/-- `_calculate_skill_strength_index`. -/
def calculate_skill_strength_index (d : SkillsData) : ℚ :=
  let entries := (d.skills_by_category.map (·.2)).flatten
  let total_score := (entries.map fun si => si.confidence * (si.frequency : ℚ)).sum
  let total_skills := entries.length
  if total_skills > 0 then round2 (total_score / (max total_skills 1) * 100) else 0

/-- The dict produced by `_analyze_skill_fit_advanced`. -/
structure SkillAnalysis where
  match_percentage : ℚ
  comprehensive_match_percentage : ℚ
  exact_matches : List String
  related_skills : List String
  critical_skill_gaps : List String
  skill_diversity_score : Nat
  total_skills_count : Nat
  category_breakdown : List (String × CategoryStats)
  skill_strength_index : ℚ
deriving DecidableEq, Repr

/-- `_analyze_skill_fit_advanced`. -/
def analyze_skill_fit_advanced (d : SkillsData) (job_description : String) :
    SkillAnalysis :=
  let job_skills := extract_skills_with_context_advanced job_description
  let cand := flatten_skills_advanced d
  let exact := setInter cand job_skills
  let related := find_related_skills_advanced cand job_skills
  let gaps := setDiff job_skills cand
  let mp : ℚ :=
    if job_skills ≠ [] then (exact.length : ℚ) / job_skills.length * 100 else 0
  let cm : ℚ :=
    if job_skills ≠ [] then
      ((exact.length : ℚ) + (related.length : ℚ) * (7/10)) / job_skills.length * 100
    else 0
  { match_percentage := round2 mp,
    comprehensive_match_percentage := round2 cm,
    exact_matches := exact,
    related_skills := related,
    critical_skill_gaps := gaps,
    skill_diversity_score := d.skill_diversity,
    total_skills_count := d.total_skills,
    category_breakdown := analyze_skill_categories d job_skills,
    skill_strength_index := calculate_skill_strength_index d }

/-!  ml_model.py : experience-fit analysis. -/

/-- Match a literal character list at the head of the input, returning the rest. -/
def litM : List Char → List Char → Option (List Char)
  | [], cs => some cs
  | _ :: _, [] => none
  | p :: ps, c :: cs => if c = p then litM ps cs else none

/-- Tail `\+?\s*years?\s*experience` of the min-years pattern (the leading
digit run has already been consumed, the optional plus is handled by the
caller).  The optional `s` needs both alternatives because only one of them
can be followed by `experience`. -/
def minYearsTail (r : List Char) : Bool :=
  match litM "year".toList (r.dropWhile isPySpace) with
  | none => false
  | some r2 =>
    let tryRest (x : List Char) : Bool :=
      (litM "experience".toList (x.dropWhile isPySpace)).isSome
    match r2 with
    | 's' :: t => tryRest t || tryRest r2
    | _ => tryRest r2

/-- Match `(\d+)\+?\s*years?\s*experience` at the current position and return
the captured number of years. -/
def minYearsAt (cs : List Char) : Option Nat :=
  let ds := cs.takeWhile Char.isDigit
  if ds.isEmpty then none
  else
    let r := cs.dropWhile Char.isDigit
    let r := match r with
      | '+' :: t => t
      | _ => r
    if minYearsTail r then some (natOfDigits ds) else none

/-- Leftmost search for the min-years pattern (`re.search` semantics). -/
def searchMinYears : List Char → Option Nat
  | [] => none
  | c :: t => minYearsAt (c :: t) <|> searchMinYears t

/-- Leftmost search for an alternation of literals; at equal positions the
alternatives are tried in pattern order, exactly as `re` does. -/
def searchAlt (alts : List String) : List Char → Option String
  | [] => none
  | c :: t =>
    match alts.find? (fun a => (litM a.toList (c :: t)).isSome) with
    | some a => some a
    | none => searchAlt alts t

/-- Alternatives of the `level` pattern of `_extract_experience_requirements_advanced`. -/
def level_literals : List String :=
  ["senior", "junior", "mid-level", "entry-level", "executive", "lead", "principal"]

/-- Alternatives of the `management` pattern. -/
def management_literals : List String :=
  ["management", "manager", "leadership", "director", "head of"]

/-- Result dict of `_extract_experience_requirements_advanced`. -/
structure ExpRequirements where
  min_years : Nat
  level : String
  management_required : Bool
deriving DecidableEq, Repr

/-- Seniority-level fallback table for the minimum-years requirement. -/
def level_mapping : List (String × Nat) :=
  [("entry-level", 0), ("junior", 1), ("mid-level", 3), ("senior", 5),
   ("lead", 7), ("principal", 8), ("executive", 10)]

/-- `_extract_experience_requirements_advanced`.  The `max_years` pattern of
the source is searched but its match is never used by any branch, so it has
no observable effect and is omitted.  A matched `0 years experience` is falsy
in Python and is overwritten by the level default, exactly as here. -/
def extract_experience_requirements_advanced (job_description : String) :
    ExpRequirements :=
  let tl := (strToLower job_description).toList
  let min0 : Nat := (searchMinYears tl).getD 0
  let level : String := (searchAlt level_literals tl).getD ""
  let mgmt : Bool := (searchAlt management_literals tl).isSome
  let min_years := if min0 = 0 then lookupD level_mapping level 2 else min0
  { min_years := min_years, level := level, management_required := mgmt }

/-- One position of `career_progression` (dict built by `_extract_position_info`). -/
structure Position where
  position : String
  company : String
  dates : String
  duration_years : ℚ
  description : String
deriving DecidableEq, Repr

/-- The dict produced by `extract_experience_advanced`. -/
structure ExperienceData where
  total_experience_years : ℚ
  experience_level : String
  industry_sectors : List String
  key_achievements : List String
  career_progression : List Position
  companies_worked : List String
  positions_held : List String
  career_gaps : Nat
  promotion_trajectory : String
deriving DecidableEq, Repr

/-- `_calculate_experience_sufficiency_score`. -/
def calculate_experience_sufficiency_score (e : ExperienceData)
    (req : ExpRequirements) : ℚ :=
  let actual := e.total_experience_years
  let required : ℚ := req.min_years
  if actual ≥ required then 100
  else if required > 0 then min 100 (actual / required * 100)
  else 50

/-- `_analyze_career_trajectory_advanced`. -/
def analyze_career_trajectory_advanced (e : ExperienceData) : ℚ :=
  if e.career_progression = [] then 0
  else
    let position_count : ℚ := e.career_progression.length
    let total := e.total_experience_years
    let avg := if e.career_progression.length > 0 then total / position_count else 0
    let stability := min 1 (avg / (5/2)) * 40
    let progression := min 1 (position_count / 8) * 30
    let leadership : ℚ :=
      if e.promotion_trajectory = "Stable Progression" then 30 else 15
    round2 (stability + progression + leadership)

/-- Industry keyword table of `_extract_industries_from_job_advanced`. -/
def industry_keywords_job : List (String × List String) := [
  ("technology", ["software", "it", "tech", "computer", "developer", "programming", "technology"]),
  ("finance", ["banking", "finance", "investment", "financial", "accounting", "bank", "investment"]),
  ("healthcare", ["medical", "health", "hospital", "healthcare", "pharmaceutical", "clinical"]),
  ("education", ["education", "academic", "university", "school", "teaching", "educational"]),
  ("retail", ["retail", "sales", "customer service", "merchandising", "e-commerce"]),
  ("manufacturing", ["manufacturing", "production", "factory", "industrial", "engineering"]),
  ("consulting", ["consulting", "consultant", "advisory", "professional services"]),
  ("government", ["government", "public sector", "municipal", "civil service"])]

/-- `_extract_industries_from_job_advanced`. -/
def extract_industries_from_job_advanced (jd : String) : List String :=
  let tl := strToLower jd
  (industry_keywords_job.filter fun c => c.2.any fun k => substrOf k tl).map (·.1)

/-- `_analyze_industry_relevance_advanced`. -/
def analyze_industry_relevance_advanced (e : ExperienceData) (jd : String) : ℚ :=
  let job_ind := extract_industries_from_job_advanced jd
  let cand := e.industry_sectors
  if job_ind = [] ∨ cand = [] then 50
  else
    let overlap := setInter job_ind cand
    let base := (overlap.length : ℚ) / job_ind.length * 100
    let bonus : ℚ := min 20 ((cand.length : ℚ) * 5)
    round2 (min (base + bonus) 100)

/-- Keyword list of `_assess_leadership_experience`. -/
def leadership_keywords : List String :=
  ["lead", "manage", "direct", "supervise", "head", "chief", "director",
   "manager", "supervisor", "team lead", "project lead", "oversee", "mentor"]

/-- `_assess_leadership_experience`. -/
def assess_leadership_experience (e : ExperienceData) : ℚ :=
  let ev : Nat := e.career_progression.foldl
    (fun acc p =>
      let acc := if leadership_keywords.any fun k => substrOf k (strToLower p.description)
                 then acc + 1 else acc
      if ["manager", "director", "head", "lead", "chief"].any fun r =>
           substrOf r (strToLower p.position)
      then acc + 2 else acc)
    0
  min 100 ((ev : ℚ) * 20)

/-- `_assess_career_stability`. -/
def assess_career_stability (e : ExperienceData) : ℚ :=
  if e.career_progression = [] then 50
  else
    let total := e.career_progression.length
    let short := (e.career_progression.filter fun p => p.duration_years < 1).length
    round2 (((total : ℚ) - short) / total * 100)

/-- The dict produced by `_analyze_experience_fit_advanced`. -/
structure ExperienceAnalysis where
  experience_sufficiency : Bool
  experience_sufficiency_score : ℚ
  career_progression_score : ℚ
  industry_relevance : ℚ
  leadership_experience : ℚ
  achievement_density : ℚ
  career_stability : ℚ
  required_experience : Nat
  actual_experience : ℚ
deriving DecidableEq, Repr

/-- `_analyze_experience_fit_advanced`. -/
def analyze_experience_fit_advanced (e : ExperienceData) (jd : String) :
    ExperienceAnalysis :=
  let req := extract_experience_requirements_advanced jd
  { experience_sufficiency := decide (e.total_experience_years ≥ (req.min_years : ℚ)),
    experience_sufficiency_score := calculate_experience_sufficiency_score e req,
    career_progression_score := analyze_career_trajectory_advanced e,
    industry_relevance := analyze_industry_relevance_advanced e jd,
    leadership_experience := assess_leadership_experience e,
    achievement_density := (e.key_achievements.length : ℚ) / max 1 e.total_experience_years,
    career_stability := assess_career_stability e,
    required_experience := req.min_years,
    actual_experience := e.total_experience_years }

/-!  ml_model.py : qualification-fit analysis. -/

/-- One qualification entry (dict built by `_extract_qualification_details`). -/
structure QualDetail where
  text : String
  level : String
  institution : String
  field : String
  dates : String
  confidence : ℚ
deriving DecidableEq, Repr

/-- The dict produced by `extract_qualifications_advanced`. -/
structure QualificationsData where
  highest_qualification : String
  qualification_level : String
  all_qualifications : List QualDetail
  institutions : List String
  fields_of_study : List String
  qualification_details : List QualDetail
deriving DecidableEq, Repr

/-- Keyword table of `_extract_required_qualification_level_advanced`. -/
def qualification_keywords_job : List (String × List String) := [
  ("phd", ["phd", "doctorate", "doctoral"]),
  ("masters", ["master", "masters", "mba", "msc", "ma", "postgraduate"]),
  ("bachelors", ["bachelor", "degree", "undergraduate", "bsc", "ba", "bcom"]),
  ("diploma", ["diploma", "certificate", "certification"])]

/-- `_extract_required_qualification_level_advanced`. -/
def extract_required_qualification_level_advanced (jd : String) : String :=
  let tl := strToLower jd
  match qualification_keywords_job.find? (fun c => c.2.any fun k => substrOf k tl) with
  | some c => c.1
  | none => ""

/-- The `level_scores` table of `_analyze_qualification_fit_advanced`.  It
contains the empty level with value 30, so an unstated required level scores
30 (the dict lookup hits the entry before the default of 50 applies). -/
def level_scores : List (String × ℚ) :=
  [("phd", 100), ("masters", 85), ("bachelors", 70), ("diploma", 60),
   ("certificate", 50), ("", 30)]

/-- Field-of-study keyword table of `_extract_field_requirements_advanced`. -/
def field_keywords_job : List (String × List String) := [
  ("computer science", ["computer science", "cs", "software engineering", "information systems", "computing"]),
  ("business", ["business administration", "mba", "commerce", "business", "management"]),
  ("engineering", ["engineering", "engineer", "mechanical", "electrical", "civil", "chemical"]),
  ("mathematics", ["mathematics", "math", "statistics", "applied math"]),
  ("finance", ["finance", "accounting", "economics", "banking", "investment"])]

/-- `_extract_field_requirements_advanced`. -/
def extract_field_requirements_advanced (jd : String) : List String :=
  let tl := strToLower jd
  (field_keywords_job.filter fun c => c.2.any fun k => substrOf k tl).map (·.1)

/-- `_analyze_field_relevance_advanced`. -/
def analyze_field_relevance_advanced (q : QualificationsData) (jd : String) : ℚ :=
  let jf := extract_field_requirements_advanced jd
  let cf := q.fields_of_study
  if jf = [] ∨ cf = [] then 50
  else
    let overlap := setInter jf cf
    let relevance := (overlap.length : ℚ) / jf.length * 100
    let relevance :=
      if cf.length > 1 then relevance + min 20 (((cf.length : ℚ) - 1) * 5)
      else relevance
    round2 (min relevance 100)

/-- The dict produced by `_analyze_qualification_fit_advanced`. -/
structure QualificationAnalysis where
  qualification_sufficiency : Bool
  qualification_gap : ℚ
  qualification_score : ℚ
  required_level_score : ℚ
  field_relevance : ℚ
  candidate_level : String
  required_level : String
deriving DecidableEq, Repr

/-- `_analyze_qualification_fit_advanced`. -/
def analyze_qualification_fit_advanced (q : QualificationsData) (jd : String) :
    QualificationAnalysis :=
  let required_level := extract_required_qualification_level_advanced jd
  let candidate_level := q.qualification_level
  let cs := lookupD level_scores candidate_level 30
  let rs := lookupD level_scores required_level 50
  { qualification_sufficiency := decide (cs ≥ rs),
    qualification_gap := max 0 (rs - cs),
    qualification_score := cs,
    required_level_score := rs,
    field_relevance := analyze_field_relevance_advanced q jd,
    candidate_level := candidate_level,
    required_level := required_level }

/-!  ml_model.py : cultural fit, achievements, overall score and report. -/

/-- One award/certification record (dict with fixed confidence 0.8). -/
structure AchievementRecord where
  text : String
  confidence : ℚ
  rec_type : String
deriving DecidableEq, Repr

/-- The dict produced by `extract_awards_certifications_advanced`. -/
structure AwardsData where
  awards : List AchievementRecord
  certifications : List AchievementRecord
  honors : List AchievementRecord
  publications : List AchievementRecord
  patents : List AchievementRecord
deriving DecidableEq, Repr

/-- Metadata block of the dict returned by `parse_resume`. -/
structure AnalysisMetadata where
  skill_categories_found : Nat
  total_skills_identified : Nat
  experience_years : ℚ
  qualification_level : String
  industries_identified : List String
deriving DecidableEq, Repr

/-- The dict returned by `parse_resume` (the candidate profile).  The
`skill_analysis` field models the optional dict key read by
`_generate_targeted_questions` via `resume_data.get('skill_analysis', {})`;
`parse_resume` never writes that key, so parsing always produces `none`. -/
structure ResumeData where
  resume_code : String
  phone_number : String
  qualifications : QualificationsData
  skills : SkillsData
  experience : ExperienceData
  awards_certifications : AwardsData
  skill_analysis : Option SkillAnalysis
  skills_list : List (String × String × ℚ)
  summary : String
  processed_text : String
  extraction_timestamp : String
  analysis_metadata : AnalysisMetadata
deriving DecidableEq, Repr

/-- Culture keyword list of `_extract_culture_indicators_advanced`. -/
def culture_keywords : List String :=
  ["fast-paced", "innovative", "collaborative", "team-oriented", "startup",
   "dynamic", "creative", "agile", "flexible", "remote", "hybrid",
   "growth mindset", "customer-focused", "results-driven", "entrepreneurial"]

/-- `_extract_culture_indicators_advanced`. -/
def extract_culture_indicators_advanced (jd : String) : List String :=
  culture_keywords.filter fun k => substrOf k (strToLower jd)

/-- `_calculate_adaptability_score_advanced`. -/
def calculate_adaptability_score_advanced (rd : ResumeData) : ℚ :=
  let score : ℚ := 50
  let score := score + min 20 ((rd.experience.industry_sectors.length : ℚ) * 5)
  let score := score + min 20 ((rd.skills.skill_diversity : ℚ) * 2)
  let score := if rd.experience.career_progression ≠ [] then score + 10 else score
  let score := score + min 10 ((rd.experience.companies_worked.length : ℚ) * 2)
  min score 100

/-- `_assess_longevity_potential_advanced`. -/
def assess_longevity_potential_advanced (rd : ResumeData) : ℚ :=
  let total := rd.experience.total_experience_years
  if total < 2 then 40
  else if rd.experience.career_progression ≠ [] then
    let avg := total / (rd.experience.career_progression.length : ℚ)
    if avg ≥ 3 then 90 else if avg ≥ 2 then 75 else if avg ≥ 1 then 60 else 45
  else 50

/-- `_assess_team_fit`. -/
def assess_team_fit (rd : ResumeData) (jd : String) : ℚ :=
  ((analyze_skill_fit_advanced rd.skills jd).comprehensive_match_percentage
    + (analyze_experience_fit_advanced rd.experience jd).experience_sufficiency_score) / 2

/-- The dict produced by `_analyze_cultural_fit_advanced`. -/
structure CulturalAnalysis where
  culture_alignment : ℚ
  adaptability_score : ℚ
  potential_longevity : ℚ
  team_fit : ℚ
deriving DecidableEq, Repr

/-- `_analyze_cultural_fit_advanced`: the alignment component is ten points
per culture indicator found in the job text, with no cap. -/
def analyze_cultural_fit_advanced (rd : ResumeData) (jd : String) : CulturalAnalysis :=
  { culture_alignment := ((extract_culture_indicators_advanced jd).length : ℚ) * 10,
    adaptability_score := calculate_adaptability_score_advanced rd,
    potential_longevity := assess_longevity_potential_advanced rd,
    team_fit := assess_team_fit rd jd }

/-- The dict produced by `_analyze_achievements_impact`. -/
structure AchievementsImpact where
  achievement_score : ℚ
  total_achievements : Nat
  has_awards : Bool
  has_certifications : Bool
  has_publications : Bool
deriving DecidableEq, Repr

/-- `_analyze_achievements_impact`. -/
def analyze_achievements_impact (a : AwardsData) : AchievementsImpact :=
  let total := a.awards.length + a.certifications.length + a.honors.length
    + a.publications.length + a.patents.length
  { achievement_score := min 100 ((total : ℚ) * 15),
    total_achievements := total,
    has_awards := decide (a.awards.length > 0),
    has_certifications := decide (a.certifications.length > 0),
    has_publications := decide (a.publications.length > 0) }

/-- `_calculate_comprehensive_score`: the weighted sum rounded to 2 decimals. -/
def calculate_comprehensive_score (sk : SkillAnalysis) (ex : ExperienceAnalysis)
    (q : QualificationAnalysis) (cu : CulturalAnalysis)
    (ach : AchievementsImpact) : ℚ :=
  let skill_score := sk.comprehensive_match_percentage
  let experience_score := ex.experience_sufficiency_score
  let qualification_score := q.qualification_score
  let cultural_score := (cu.culture_alignment + cu.adaptability_score) / 2
  let achievements_score := ach.achievement_score
  round2 (skill_score * (40/100) + experience_score * (30/100)
    + qualification_score * (15/100) + cultural_score * (10/100)
    + achievements_score * (5/100))

/-- `_generate_detailed_recommendation`. -/
def generate_detailed_recommendation (score : ℚ) (sk : SkillAnalysis)
    (_ex : ExperienceAnalysis) : String :=
  let skill_match := sk.comprehensive_match_percentage
  if score ≥ 90 then
    "🏆 TOP CANDIDATE - Exceptional match with outstanding skills and experience. Immediate interview recommended."
  else if score ≥ 80 then
    "✅ STRONG RECOMMEND - Excellent skills alignment with sufficient experience. High potential candidate."
  else if score ≥ 70 then
    "👍 RECOMMEND - Good overall fit with solid qualifications. Worth interviewing."
  else if score ≥ 60 then
    if skill_match ≥ 70 then
      "🟡 SKILL-FOCUSED CANDIDATE - Strong skills match but limited experience. Consider for specialized roles."
    else
      "🟡 EXPERIENCED CANDIDATE - Good experience but some skill gaps. Training potential."
  else if score ≥ 50 then
    "🟠 BORDERLINE CANDIDATE - Moderate fit with development areas. Consider for junior positions."
  else
    "🔴 NOT RECOMMENDED - Significant mismatches with role requirements."

/-- Fixed behavioral questions appended by `_generate_targeted_questions`. -/
def behavioral_questions : List String :=
  ["Describe a challenging project you worked on and how you overcame obstacles.",
   "How do you stay current with industry trends and technologies?",
   "What attracted you to this particular role and our company?"]

/-- `_generate_targeted_questions`.  The skill gaps are read from
`resume_data.get('skill_analysis', {})`, a key the parser never produces, so
the gap question requires a profile that explicitly carries that key. -/
def generate_targeted_questions (rd : ResumeData) (_jd : String) : List String :=
  let skill_gaps := match rd.skill_analysis with
    | some sa => sa.critical_skill_gaps
    | none => []
  let qs : List String := []
  let qs := if skill_gaps ≠ [] then
      qs ++ ["How would you approach developing skills in "
        ++ strIntercalate ", " (skill_gaps.take 2) ++ " to meet our requirements?"]
    else qs
  let qs := if rd.experience.total_experience_years < 3 then
      qs ++ ["What strategies would you use to quickly ramp up in this role given your experience level?"]
    else qs
  let qs := if rd.experience.career_progression.length > 0 then
      qs ++ ["Can you walk us through your career progression and what motivated your key transitions?"]
    else qs
  let qs := if rd.experience.key_achievements ≠ [] then
      qs ++ ["Which of your professional achievements are you most proud of and how do they relate to this role?"]
    else qs
  let qs := match rd.experience.industry_sectors with
    | ind :: _ => qs ++ ["How has your experience in " ++ ind ++ " prepared you for this position?"]
    | [] => qs
  (qs ++ behavioral_questions).take 6

/-- The dict produced by `_identify_strengths_weaknesses`. -/
structure StrengthsWeaknesses where
  strengths : List String
  weaknesses : List String
  development_areas : List String
deriving DecidableEq, Repr

/-- `_identify_strengths_weaknesses`. -/
def identify_strengths_weaknesses (rd : ResumeData) (jd : String) :
    StrengthsWeaknesses :=
  let sk := analyze_skill_fit_advanced rd.skills jd
  let strengths : List String :=
    if sk.comprehensive_match_percentage ≥ 70 then
      ["Strong skills alignment (" ++ reprRat sk.comprehensive_match_percentage ++ "% match)"]
    else []
  let weaknesses : List String :=
    if sk.comprehensive_match_percentage ≥ 70 then []
    else ["Skill gaps in: " ++ strIntercalate ", " (sk.critical_skill_gaps.take 3)]
  let strengths :=
    if rd.experience.total_experience_years ≥ 3 then
      strengths ++ ["Substantial professional experience ("
        ++ reprRat rd.experience.total_experience_years ++ " years)"]
    else strengths
  let weaknesses :=
    if rd.experience.total_experience_years ≥ 3 then weaknesses
    else weaknesses ++ ["Limited professional experience"]
  let strengths :=
    if rd.qualifications.qualification_level = "masters"
        ∨ rd.qualifications.qualification_level = "phd" then
      strengths ++ ["Advanced educational qualifications"]
    else strengths
  let strengths :=
    if rd.experience.promotion_trajectory = "Stable Progression" then
      strengths ++ ["Stable career progression"]
    else strengths
  { strengths := strengths.take 4,
    weaknesses := weaknesses.take 3,
    development_areas := sk.critical_skill_gaps.take 3 }

/-- The dict produced by `analyze_candidate_fit`. -/
structure AnalysisResult where
  overall_score : ℚ
  skill_analysis : SkillAnalysis
  experience_analysis : ExperienceAnalysis
  qualification_analysis : QualificationAnalysis
  cultural_fit : CulturalAnalysis
  achievements_impact : AchievementsImpact
  hiring_recommendation : String
  interview_questions : List String
  strengths_weaknesses : StrengthsWeaknesses
deriving DecidableEq, Repr

/-- `analyze_candidate_fit`. -/
def analyze_candidate_fit (rd : ResumeData) (jd : String) : AnalysisResult :=
  let skill_fit := analyze_skill_fit_advanced rd.skills jd
  let experience_fit := analyze_experience_fit_advanced rd.experience jd
  let qualification_fit := analyze_qualification_fit_advanced rd.qualifications jd
  let cultural_fit := analyze_cultural_fit_advanced rd jd
  let achievements_impact := analyze_achievements_impact rd.awards_certifications
  let overall_score := calculate_comprehensive_score skill_fit experience_fit
    qualification_fit cultural_fit achievements_impact
  { overall_score := overall_score,
    skill_analysis := skill_fit,
    experience_analysis := experience_fit,
    qualification_analysis := qualification_fit,
    cultural_fit := cultural_fit,
    achievements_impact := achievements_impact,
    hiring_recommendation :=
      generate_detailed_recommendation overall_score skill_fit experience_fit,
    interview_questions := generate_targeted_questions rd jd,
    strengths_weaknesses := identify_strengths_weaknesses rd jd }

/-- `_identify_resume_strengths`. -/
def identify_resume_strengths (rd : ResumeData) : List String :=
  let s : List String :=
    if rd.experience.total_experience_years ≥ 3 then
      ["Clear career progression and substantial experience"]
    else []
  let s := if rd.skills.total_skills ≥ 15 then
      s ++ ["Diverse and comprehensive skill set"]
    else s
  let s := if rd.qualifications.highest_qualification ≠ "" then
      s ++ ["Well-documented educational background"]
    else s
  if rd.awards_certifications.awards ≠ [] ∨ rd.awards_certifications.certifications ≠ [] then
    s ++ ["Notable professional achievements and certifications"]
  else s

/-- `_identify_resume_improvements`. -/
def identify_resume_improvements (rd : ResumeData) : List String :=
  let s : List String :=
    if rd.experience.total_experience_years < 2 then
      ["Could benefit from more detailed project descriptions"]
    else []
  let s := if rd.skills.total_skills < 8 then
      s ++ ["Consider expanding technical and professional skills section"]
    else s
  if rd.qualifications.highest_qualification = "" then
    s ++ ["Include educational qualifications if applicable"]
  else s

/-- The dict produced by `_generate_quality_analysis_advanced`. -/
structure QualityAnalysis where
  overall_score : ℚ
  section_scores : List (String × ℚ)
  strengths : List String
  improvements : List String
  ats_compatibility : ℚ
deriving DecidableEq, Repr

/-- `_generate_quality_analysis_advanced`. -/
def generate_quality_analysis_advanced (rd : ResumeData) : QualityAnalysis :=
  let experience_years := rd.experience.total_experience_years
  let total_skills := rd.skills.total_skills
  let total_achievements := rd.awards_certifications.awards.length
    + rd.awards_certifications.certifications.length
    + rd.awards_certifications.honors.length
  let qs : ℚ := 65
  let qs := if experience_years > 2 then qs + 10 else qs
  let qs := if experience_years > 5 then qs + 5 else qs
  let qs := if total_skills > 10 then qs + 10 else qs
  let qs := if total_skills > 20 then qs + 5 else qs
  let qs := if rd.qualifications.highest_qualification ≠ "" then qs + 10 else qs
  let qs := if total_achievements > 0 then
      qs + min 10 ((total_achievements : ℚ) * 2)
    else qs
  let qs := min qs 100
  { overall_score := qs,
    section_scores :=
      [("Experience", min 100 (experience_years * 8 + 40)),
       ("Skills", min 100 ((total_skills : ℚ) * 3)),
       ("Education", if rd.qualifications.highest_qualification ≠ "" then 100 else 50),
       ("Achievements", min 100 ((total_achievements : ℚ) * 20))],
    strengths := identify_resume_strengths rd,
    improvements := identify_resume_improvements rd,
    ats_compatibility := 80 }

/-- `_determine_interview_priority_advanced`. -/
def determine_interview_priority_advanced (score : ℚ) : String :=
  if score ≥ 85 then "HIGH PRIORITY - Schedule immediately"
  else if score ≥ 70 then "MEDIUM PRIORITY - Schedule within week"
  else if score ≥ 55 then "LOW PRIORITY - Consider if other candidates unavailable"
  else "NOT RECOMMENDED - Significant gaps identified"

/-- `_generate_comprehensive_recommendation_advanced`. -/
def generate_comprehensive_recommendation_advanced (job_fit : AnalysisResult)
    (quality : QualityAnalysis) : String :=
  let overall_score := job_fit.overall_score
  let quality_score := quality.overall_score
  if overall_score ≥ 85 ∧ quality_score ≥ 80 then
    "🏆 EXCEPTIONAL CANDIDATE - Outstanding match across all criteria with high-quality resume"
  else if overall_score ≥ 75 then
    "✅ STRONG CANDIDATE - Excellent job fit with well-presented qualifications"
  else if overall_score ≥ 60 then
    "👍 PROMISING CANDIDATE - Good potential with some areas for development"
  else if overall_score ≥ 50 then
    "🟡 DEVELOPMENT CANDIDATE - Requires training but shows potential"
  else
    "🔴 NOT SUITABLE - Significant gaps in required qualifications"

/-- The `job_fit_analysis` block of the final report. -/
structure JobFitReport where
  compatibility_score : ℚ
  skill_match : ℚ
  experience_match : ℚ
  education_match : ℚ
  matching_skills : List String
  missing_skills : List String
  skill_match_breakdown : List (String × CategoryStats)
  fit_analysis : String
deriving DecidableEq, Repr

/-- The dict returned by `generate_comprehensive_report`. -/
structure Report where
  job_fit_analysis : JobFitReport
  quality_analysis : QualityAnalysis
  interview_priority : String
  recommendation : String
  interview_questions : List String
  strengths_weaknesses : StrengthsWeaknesses
  resume_code : String
  confidential_lookup : String
deriving DecidableEq, Repr

/-- `generate_comprehensive_report`. -/
def generate_comprehensive_report (job_requirements : String) (rd : ResumeData) :
    Report :=
  let job_fit_analysis := analyze_candidate_fit rd job_requirements
  let quality_analysis := generate_quality_analysis_advanced rd
  { job_fit_analysis :=
      { compatibility_score := job_fit_analysis.overall_score,
        skill_match := job_fit_analysis.skill_analysis.match_percentage,
        experience_match := job_fit_analysis.experience_analysis.experience_sufficiency_score,
        education_match := job_fit_analysis.qualification_analysis.qualification_score,
        matching_skills := job_fit_analysis.skill_analysis.exact_matches,
        missing_skills := job_fit_analysis.skill_analysis.critical_skill_gaps,
        skill_match_breakdown := job_fit_analysis.skill_analysis.category_breakdown,
        fit_analysis := job_fit_analysis.hiring_recommendation },
    quality_analysis := quality_analysis,
    interview_priority :=
      determine_interview_priority_advanced job_fit_analysis.overall_score,
    recommendation :=
      generate_comprehensive_recommendation_advanced job_fit_analysis quality_analysis,
    interview_questions := job_fit_analysis.interview_questions,
    strengths_weaknesses := job_fit_analysis.strengths_weaknesses,
    resume_code := rd.resume_code,
    confidential_lookup :=
      "Use phone number with resume code: " ++ rd.resume_code }

/-!  nlp_processor.py : environment of abstracted collaborators.

The hash functions and the clock come from libraries (`hashlib`,
`datetime`); phone extraction, position-title/company/institution extraction
and the two confidence-bonus regex searches are source helpers whose results
do not influence any claim, so they are abstracted as parameters.  Every
general theorem below holds for every `Env`. -/

/-- Abstracted collaborators of `AdvancedResumeAnalyzer`. -/
structure Env where
  sha256hex : String → String
  md5hex : String → String
  mmdd : String
  now_iso : String
  current_year : Nat
  extract_phone : String → String
  extract_position_title : String → String
  extract_company_name : String → String
  extract_institution : String → String
  in_skills_section : String → String → Bool
  in_bullet_list : String → String → Bool

/-- `generate_confidential_code`: `hashlib.sha256(phone).hexdigest()[:8].upper()`
with an `MMDD` suffix when a phone number is present, otherwise
`hashlib.md5(text[:500]).hexdigest()[:8].upper()` with no date suffix. -/
def generate_confidential_code (env : Env) (phone_number text : String) : String :=
  if phone_number ≠ "" then
    "CV-" ++ strToUpper (strTake (env.sha256hex phone_number) 8) ++ "-" ++ env.mmdd
  else
    "CV-" ++ strToUpper (strTake (env.md5hex (strTake text 500)) 8)

/-!  nlp_processor.py : `_extract_dates` — the four date patterns, searched in
order with `re.search` (leftmost match, alternatives in pattern order), all
with `re.IGNORECASE`. -/

/-- Case-insensitive literal match. -/
def ciLit : List Char → List Char → Option (List Char)
  | [], cs => some cs
  | _ :: _, [] => none
  | p :: ps, c :: cs => if c.toLower = p.toLower then ciLit ps cs else none

/-- Match `20\d{2}` at the current position. -/
def year20M : List Char → Option (List Char)
  | '2' :: '0' :: a :: b :: r => if a.isDigit && b.isDigit then some r else none
  | _ => none

/-- A dash of the character class `[-–]`. -/
def dashChar (c : Char) : Bool := c = '-' || c = '–'

/-- The alternation `(?:20\d{2}|Present|Current|Now)`. -/
def endAltP (cs : List Char) : Option (List Char) :=
  year20M cs <|> ciLit "present".toList cs <|> ciLit "current".toList cs
    <|> ciLit "now".toList cs

/-- Pattern 1, `20\d{2}[-–]\s*(?:20\d{2}|Present|Current|Now)`, at a position. -/
def pat1At (cs : List Char) : Option (List Char) :=
  match year20M cs with
  | none => none
  | some r =>
    match r with
    | d :: r2 => if dashChar d then endAltP (r2.dropWhile isPySpace) else none
    | [] => none

/-- Pattern 2, `(20\d{2})\s*[-–]\s*(20\d{2}|Present|Current|Now)`, at a position. -/
def pat2At (cs : List Char) : Option (List Char) :=
  match year20M cs with
  | none => none
  | some r =>
    match r.dropWhile isPySpace with
    | d :: r2 => if dashChar d then endAltP (r2.dropWhile isPySpace) else none
    | [] => none

/-- Month-name alternatives of pattern 3. -/
def monthLits : List String :=
  ["Jan", "Feb", "Mar", "Apr", "May", "Jun", "Jul", "Aug", "Sep", "Oct", "Nov", "Dec"]

/-- First alternative of a literal alternation matching at this position. -/
def tryAlts (alts : List String) (cs : List Char) : Option (List Char) :=
  match alts with
  | [] => none
  | a :: t => ciLit a.toList cs <|> tryAlts t cs

/-- Match `\d{4}` at the current position. -/
def digits4 : List Char → Option (List Char)
  | a :: b :: c :: d :: r =>
    if a.isDigit && b.isDigit && c.isDigit && d.isDigit then some r else none
  | _ => none

/-- Pattern 3 — a top-level alternation: a month-year range
`(Jan|…|Dec)[a-z]*\s*\d{4}[-–]\s*(?:Jan|…|Dec)[a-z]*\s*\d{4}`, or the bare
words `Present`, `Current`, `Now`.  With `re.IGNORECASE` the class `[a-z]`
also matches uppercase letters. -/
def pat3At (cs : List Char) : Option (List Char) :=
  (match tryAlts monthLits cs with
   | none => none
   | some r =>
     let r := (r.dropWhile Char.isAlpha).dropWhile isPySpace
     match digits4 r with
     | none => none
     | some r2 =>
       match r2 with
       | d :: r3 =>
         if dashChar d then
           match tryAlts monthLits (r3.dropWhile isPySpace) with
           | none => none
           | some r4 => digits4 ((r4.dropWhile Char.isAlpha).dropWhile isPySpace)
         else none
       | [] => none)
  <|> ciLit "present".toList cs <|> ciLit "current".toList cs
  <|> ciLit "now".toList cs

/-- Pattern 4, `\b(?:19|20)\d{2}\b`, at a position with the previous character
supplied for the leading word boundary. -/
def pat4At (prev : Option Char) (cs : List Char) : Option (List Char) :=
  if (match prev with | some p => isWordChar p | none => false) then none
  else
    match litM "19".toList cs <|> litM "20".toList cs with
    | some (a :: b :: r) =>
      if a.isDigit && b.isDigit
          && (match r with | x :: _ => !isWordChar x | [] => true) then
        some r
      else none
    | _ => none

/-- Leftmost search of a positional matcher, returning the matched text. -/
def searchPat (m : Option Char → List Char → Option (List Char)) :
    Option Char → List Char → Option (List Char)
  | prev, cs =>
    match m prev cs with
    | some rest => some (cs.take (cs.length - rest.length))
    | none =>
      match cs with
      | [] => none
      | c :: t => searchPat m (some c) t

/-- `_extract_dates`: the first of the four patterns that matches anywhere in
the text wins and its matched text is returned; otherwise the empty string. -/
def extract_dates (text : String) : String :=
  let cs := text.toList
  match searchPat (fun _ s => pat1At s) none cs with
  | some m => String.mk m
  | none =>
    match searchPat (fun _ s => pat2At s) none cs with
    | some m => String.mk m
    | none =>
      match searchPat (fun _ s => pat3At s) none cs with
      | some m => String.mk m
      | none =>
        match searchPat pat4At none cs with
        | some m => String.mk m
        | none => ""

/-!  nlp_processor.py : `_calculate_position_duration`. -/

/-- One token of `re.findall(r'20\d{2}|19\d{2}', dates)` at the current
position (alternatives in pattern order; they can never both match). -/
def year_tok? (cs : List Char) : Option (List Char × List Char) :=
  match cs with
  | '2' :: '0' :: a :: b :: r =>
    if a.isDigit && b.isDigit then some (['2', '0', a, b], r) else none
  | '1' :: '9' :: a :: b :: r =>
    if a.isDigit && b.isDigit then some (['1', '9', a, b], r) else none
  | _ => none

/-- Left-to-right, non-overlapping scan of `re.findall`; the fuel is an upper
bound on the scan steps (the text shrinks by at least one character per
step, so `length + 1` is always enough). -/
def findall_years_aux : Nat → List Char → List (List Char)
  | 0, _ => []
  | _, [] => []
  | fuel + 1, c :: t =>
    match year_tok? (c :: t) with
    | some (tok, r) => tok :: findall_years_aux fuel r
    | none => findall_years_aux fuel t

/-- `re.findall(r'20\d{2}|19\d{2}', dates)`. -/
def findall_years (cs : List Char) : List (List Char) :=
  findall_years_aux (cs.length + 1) cs

/-- Python `str.isdigit` on a token. -/
def isAllDigits (cs : List Char) : Bool := !cs.isEmpty && cs.all Char.isDigit

/-- `_calculate_position_duration`: start and end year are the first two year
tokens; the `isdigit` test on the second token keeps the source's (dead)
fallback to the current year.  The difference may be negative. -/
def calculate_position_duration (current_year : Nat) (dates : String) : ℚ :=
  match findall_years dates.toList with
  | y1 :: y2 :: _ =>
    let start_year : ℤ := natOfDigits y1
    let end_year : ℤ := if isAllDigits y2 then natOfDigits y2 else current_year
    ((end_year - start_year : ℤ) : ℚ)
  | _ => 0

/-!  nlp_processor.py : qualification-level detection.  Every pattern of
`self.qualification_levels` is a `\b`-delimited literal, possibly with
optional characters (`ph\.?d\.?`, `msc?`, `bsc?`); they are represented as
token lists and matched with the exact `\b` semantics of `re` (the optional
trailing character backtracks when the boundary fails after it). -/

/-- One token of a qualification pattern: a literal or an optional character. -/
inductive PatTok where
  | lit : Char → PatTok
  | opt : Char → PatTok
deriving DecidableEq, Repr

/-- Literal pattern from a string. -/
def lits (s : String) : List PatTok := s.toList.map PatTok.lit

/-- All ways to match the token list from this position; each result carries
the last consumed character (for the trailing word boundary) and the rest. -/
def matchToks : List PatTok → Char → List Char → List (Char × List Char)
  | [], last, cs => [(last, cs)]
  | .lit c :: ts, _, x :: cs => if x = c then matchToks ts x cs else []
  | .lit _ :: _, _, [] => []
  | .opt c :: ts, last, cs =>
    (match cs with
     | x :: cs2 => if x = c then matchToks ts x cs2 else []
     | [] => []) ++ matchToks ts last cs

/-- Word boundary `\b` between two adjacent characters (absent = non-word). -/
def boundaryOk (a b : Option Char) : Bool :=
  (match a with | some c => isWordChar c | none => false)
    != (match b with | some c => isWordChar c | none => false)

/-- Match `\b<toks>\b` at the current position (all our patterns start with a
literal character, so the leading boundary is checked against it). -/
def patMatchAt (toks : List PatTok) (prev : Option Char) (cs : List Char) : Bool :=
  match toks with
  | .lit c :: _ =>
    boundaryOk prev (some c)
      && ((matchToks toks ' ' cs).any fun p => boundaryOk (some p.1) p.2.head?)
  | _ => false

/-- `re.search` (existence) of a `\b`-delimited pattern. -/
def patSearch (toks : List PatTok) : Option Char → List Char → Bool
  | prev, cs =>
    patMatchAt toks prev cs
      || match cs with
         | [] => false
         | c :: t => patSearch toks (some c) t

/-- Search a word pattern anywhere in a string. -/
def reSearchWordPat (toks : List PatTok) (text : String) : Bool :=
  patSearch toks none text.toList

/-- Pattern table `self.qualification_levels` (dict order). -/
def qualification_levels : List (String × List (List PatTok)) := [
  ("phd",
    [lits "ph" ++ [.opt '.'] ++ lits "d" ++ [.opt '.'],
     lits "doctorate", lits "doctor of philosophy", lits "dphil",
     lits "doctoral", lits "phd candidate"]),
  ("masters",
    [lits "master", lits "ms" ++ [.opt 'c'], lits "ma", lits "mba", lits "mpa",
     lits "llm", lits "med", lits "postgraduate", lits "graduate degree",
     lits "msc", lits "masters",
     lits "master" ++ [.lit apos] ++ lits "s"]),
  ("bachelors",
    [lits "bachelor", lits "bs" ++ [.opt 'c'], lits "ba", lits "bcom",
     lits "beng", lits "undergraduate", lits "degree",
     lits "bachelor" ++ [.lit apos] ++ lits "s",
     lits "btech", lits "bachelor of"]),
  ("diploma",
    [lits "diploma", lits "advanced diploma", lits "higher diploma",
     lits "national diploma", lits "postgraduate diploma"]),
  ("certificate",
    [lits "certificate", lits "professional certificate",
     lits "vocational certificate", lits "certification", lits "certified"]),
  ("high_school",
    [lits "a level", lits "o level", lits "high school",
     lits "secondary education", lits "advanced level", lits "ordinary level",
     lits "secondary school"])]

/-- `_detect_qualification_level_advanced`: first level (dict order) with any
matching pattern. -/
def detect_qualification_level_advanced (text : String) : String :=
  let tl := strToLower text
  match qualification_levels.find? (fun lv => lv.2.any fun p => reSearchWordPat p tl) with
  | some lv => lv.1
  | none => ""

/-- Field-of-study list of `_extract_field_of_study_advanced`. -/
def fields_of_study_list : List String :=
  ["computer science", "information systems", "business administration", "engineering",
   "medicine", "law", "accounting", "finance", "marketing", "economics", "mathematics",
   "physics", "chemistry", "biology", "psychology", "sociology", "political science",
   "information technology", "software engineering", "data science", "artificial intelligence",
   "mechanical engineering", "electrical engineering", "civil engineering", "chemical engineering",
   "public health", "nursing", "pharmacy", "dentistry", "education", "teaching",
   "human resources", "management", "entrepreneurship", "international business",
   "journalism", "communications", "public relations", "graphic design", "architecture"]

/-- `_extract_field_of_study_advanced`: first matching field, title-cased. -/
def extract_field_of_study_advanced (text : String) : String :=
  let tl := strToLower text
  match fields_of_study_list.find? (fun f => substrOf f tl) with
  | some f => titlePy f
  | none => ""

/-- `_calculate_qualification_confidence` (institution detection abstracted in
the environment; its truth value only moves the bonus). -/
def calculate_qualification_confidence (env : Env) (text : String) : ℚ :=
  let c : ℚ := 6/10
  let c := if env.extract_institution text ≠ "" then c + 2/10 else c
  let c := if extract_field_of_study_advanced text ≠ "" then c + 1/10 else c
  let c := if extract_dates text ≠ "" then c + 1/10 else c
  min c 1

/-- `_extract_qualification_details`: `None` when no level is detected. -/
def extract_qualification_details (env : Env) (text : String) : Option QualDetail :=
  let lvl := detect_qualification_level_advanced text
  if lvl = "" then none
  else some
    { text := text, level := lvl,
      institution := env.extract_institution text,
      field := extract_field_of_study_advanced text,
      dates := extract_dates text,
      confidence := calculate_qualification_confidence env text }

/-- Education-section start keywords of `extract_qualifications_advanced`. -/
def qual_start_keywords : List String :=
  ["education", "qualifications", "academic", "degrees",
   "educational background", "academic qualifications"]

/-- Education-section terminator keywords of `extract_qualifications_advanced`. -/
def qual_end_keywords : List String :=
  ["experience", "work experience", "employment",
   "skills", "projects", "certifications", "professional"]

/-- A line opens (or re-flags) the education section. -/
def isQualSectionStart (line_lower : String) : Bool :=
  qual_start_keywords.any fun k => substrOf k line_lower

/-- Line loop of `extract_qualifications_advanced`.  A start-keyword line sets
the flag and is skipped; inside the section a short line containing a
terminator keyword executes `break`, ending the whole loop — lines after it
are never visited again. -/
def qual_loop (env : Env) : Bool → List String → List QualDetail
  | _, [] => []
  | inSection, line :: rest =>
    let line_clean := strStrip line
    let line_lower := strToLower line_clean
    if isQualSectionStart line_lower then qual_loop env true rest
    else if inSection then
      if (qual_end_keywords.any fun k => substrOf k line_lower)
          && line_clean.length < 50 then []
      else
        match extract_qualification_details env line_clean with
        | some q => q :: qual_loop env inSection rest
        | none => qual_loop env inSection rest
    else qual_loop env inSection rest

/-- Level priority used to pick the highest qualification. -/
def level_priority : List (String × Nat) :=
  [("phd", 6), ("masters", 5), ("bachelors", 4), ("diploma", 3),
   ("certificate", 2), ("high_school", 1)]

/-- Python `max(..., key=...)`: the first entry of maximal priority. -/
def maxByPriority (qs : List QualDetail) : Option QualDetail :=
  qs.foldl
    (fun best q =>
      match best with
      | none => some q
      | some b =>
        if lookupD level_priority q.level 0 > lookupD level_priority b.level 0
        then some q else some b)
    none

/-- `extract_qualifications_advanced`. -/
def extract_qualifications_advanced (env : Env) (text : String) :
    QualificationsData :=
  let all := qual_loop env false (strSplitLines text)
  match maxByPriority all with
  | some hq =>
    { highest_qualification := hq.text,
      qualification_level := hq.level,
      all_qualifications := all,
      qualification_details := all,
      institutions := (all.filter fun q => q.institution ≠ "").map (·.institution),
      fields_of_study := (all.filter fun q => q.field ≠ "").map (·.field) }
  | none =>
    { highest_qualification := "", qualification_level := "",
      all_qualifications := all, qualification_details := all,
      institutions := [], fields_of_study := [] }

/-!  nlp_processor.py : comprehensive skill extraction.  Each keyword is
matched as `\b<escaped keyword>\b` over the lowered text; matches are counted
non-overlapping and left to right (the semantics of `re.findall` for a
literal pattern). -/

/-- Skill taxonomy `self.skill_keywords` (verbatim, duplicates included). -/
def skill_keywords : List (String × List String) := [
  ("programming_languages",
    ["python", "java", "javascript", "typescript", "c++", "c#", "go", "rust", "swift", "kotlin",
     "php", "ruby", "scala", "r", "matlab", "perl", "html", "css", "sass", "less", "sql", "pl/sql",
     "bash", "shell", "powershell", "dart", "assembly", "fortran", "cobol", "visual basic", "vba"]),
  ("web_development",
    ["django", "flask", "fastapi", "spring", "express", "react", "angular", "vue", "svelte",
     "laravel", "ruby on rails", "asp.net", "node.js", "next.js", "nuxt.js", "jquery", "bootstrap",
     "tailwind", "webpack", "babel", "npm", "yarn", "graphql", "rest api", "soap", "json", "xml",
     "ajax", "web services", "microservices", "api development"]),
  ("mobile_development",
    ["android", "ios", "react native", "flutter", "xamarin", "ionic", "swiftui", "kotlin multiplatform",
     "mobile app development", "cross-platform development", "android studio", "xcode"]),
  ("databases",
    ["mysql", "postgresql", "mongodb", "redis", "sqlite", "oracle", "sql server", "cassandra",
     "dynamodb", "elasticsearch", "firebase", "cosmosdb", "mariadb", "db2", "sqlite", "hbase",
     "neo4j", "arangodb", "couchbase", "rethinkdb", "database design", "database management"]),
  ("cloud_platforms",
    ["aws", "azure", "google cloud", "gcp", "docker", "kubernetes", "terraform", "ansible",
     "jenkins", "gitlab", "github actions", "heroku", "digital ocean", "linode", "vultr",
     "ibm cloud", "oracle cloud", "alibaba cloud", "openshift", "cloudformation", "cloud computing"]),
  ("data_science_ai",
    ["machine learning", "deep learning", "tensorflow", "pytorch", "keras", "scikit-learn",
     "pandas", "numpy", "matplotlib", "seaborn", "plotly", "tableau", "power bi", "qlik",
     "data analysis", "data visualization", "statistical analysis", "natural language processing",
     "computer vision", "neural networks", "reinforcement learning", "big data", "hadoop", "spark",
     "data mining", "predictive modeling", "artificial intelligence", "nlp", "computer vision",
     "data engineering", "etl", "data warehousing", "business intelligence"]),
  ("cybersecurity",
    ["network security", "information security", "cyber security", "penetration testing", "ethical hacking",
     "vulnerability assessment", "siem", "soc", "firewall", "vpn", "encryption", "cryptography",
     "incident response", "threat intelligence", "risk assessment", "compliance", "gdpr", "hipaa",
     "pci dss", "iso 27001", "nist", "owasp", "security audit", "digital forensics"]),
  ("devops",
    ["ci/cd", "continuous integration", "continuous deployment", "jenkins", "gitlab ci", "github actions",
     "ansible", "puppet", "chef", "docker", "kubernetes", "helm", "terraform", "infrastructure as code",
     "monitoring", "logging", "prometheus", "grafana", "elk stack", "splunk"]),
  ("project_management",
    ["project management", "agile", "scrum", "kanban", "waterfall", "prince2", "pmp", "pmbok",
     "jira", "trello", "asana", "basecamp", "risk management", "stakeholder management",
     "budget management", "resource allocation", "project planning", "gantt chart", "critical path",
     "ms project", "smartsheet"]),
  ("business_analysis",
    ["business analysis", "requirements gathering", "user stories", "use cases", "process modeling",
     "bpmn", "uml", "swot analysis", "gap analysis", "cost-benefit analysis", "roi analysis",
     "kpi tracking", "metrics", "dashboard creation", "business intelligence", "process improvement"]),
  ("finance_accounting",
    ["financial analysis", "accounting", "bookkeeping", "financial modeling", "budgeting", "forecasting",
     "quickbooks", "xero", "sage", "ifrs", "gaap", "tax preparation", "audit", "internal controls",
     "financial reporting", "cash flow management", "investment analysis", "risk management",
     "sap fico", "oracle financials", "financial planning"]),
  ("marketing_sales",
    ["digital marketing", "social media marketing", "seo", "sem", "google analytics", "google ads",
     "facebook ads", "content marketing", "email marketing", "marketing automation", "hubspot",
     "market research", "brand management", "sales", "business development", "lead generation",
     "customer relationship management", "crm", "salesforce", "negotiation", "presentation skills",
     "copywriting", "brand strategy", "market analysis"]),
  ("human_resources",
    ["recruitment", "talent acquisition", "onboarding", "training and development", "performance management",
     "compensation and benefits", "employee relations", "hr policies", "labor law", "succession planning",
     "organizational development", "change management", "diversity and inclusion", "hr analytics",
     "payroll management", "hris", "workday", "successfactors"]),
  ("supply_chain",
    ["supply chain management", "logistics", "inventory management", "procurement", "purchasing",
     "warehouse management", "demand planning", "supplier management", "sap mm", "oracle scm"]),
  ("graphic_design",
    ["adobe photoshop", "adobe illustrator", "adobe indesign", "adobe xd", "figma", "sketch",
     "coreldraw", "canva", "ui design", "ux design", "user experience", "user interface",
     "wireframing", "prototyping", "visual design", "brand identity", "logo design", "typography",
     "color theory", "print design", "digital design", "adobe creative suite"]),
  ("video_audio",
    ["video editing", "adobe premiere pro", "final cut pro", "after effects", "davinci resolve",
     "motion graphics", "animation", "3d modeling", "blender", "maya", "cinema 4d", "audio editing",
     "ableton live", "logic pro", "pro tools", "sound design", "podcast production"]),
  ("soft_skills",
    ["communication", "leadership", "teamwork", "problem solving", "critical thinking",
     "adaptability", "time management", "creativity", "collaboration", "analytical skills",
     "strategic planning", "negotiation", "presentation", "conflict resolution", "decision making",
     "emotional intelligence", "public speaking", "writing", "research", "attention to detail",
     "interpersonal skills", "customer service", "mentoring", "coaching"]),
  ("languages",
    ["english", "french", "spanish", "german", "chinese", "japanese", "arabic", "portuguese",
     "russian", "hindi", "shona", "ndebele", "swahili", "zulu", "afrikaans"]),
  ("healthcare",
    ["patient care", "medical terminology", "healthcare management", "clinical research",
     "pharmaceutical", "nursing", "medical coding", "hipaa compliance", "electronic health records",
     "medical devices", "healthcare analytics"]),
  ("education",
    ["teaching", "curriculum development", "lesson planning", "classroom management",
     "educational technology", "student assessment", "academic advising", "research methodology"]),
  ("legal",
    ["legal research", "contract law", "corporate law", "litigation", "legal writing",
     "compliance", "intellectual property", "legal documentation", "case management"]),
  ("engineering",
    ["mechanical engineering", "electrical engineering", "civil engineering", "chemical engineering",
     "cad", "autocad", "solidworks", "matlab", "simulation", "project engineering", "quality control"]),
  ("manufacturing",
    ["lean manufacturing", "six sigma", "quality assurance", "production planning", "supply chain",
     "process improvement", "manufacturing operations", "health and safety", "iso 9001"]),
  ("retail",
    ["retail management", "merchandising", "inventory control", "customer service", "sales floor",
     "visual merchandising", "store operations", "point of sale", "retail analytics"]),
  ("zimbabwe_skills",
    ["zimswitch", "ecocash", "onedollar", "rtgs", "forex", "zimra", "rbz", "zimbabwean market",
     "local regulations", "zimbabwe business environment", "local banking", "zse", "zimbabwe stock exchange"])]

/-- Count the non-overlapping, left-to-right matches of `\b<skill>\b`; the
fuel is an upper bound on the scan steps (the text always shrinks by at least
one character per step, so `length + 1` is always enough). -/
def countWB (skill : List Char) : Nat → Option Char → List Char → Nat
  | 0, _, _ => 0
  | _, _, [] => 0
  | fuel + 1, prev, c :: t =>
    match litM skill (c :: t) with
    | some rest =>
      if boundaryOk prev skill.head?
          && boundaryOk skill.getLast? rest.head? then
        1 + countWB skill fuel skill.getLast? rest
      else countWB skill fuel (some c) t
    | none => countWB skill fuel (some c) t

/-- Number of word-boundary matches of a skill keyword in a text. -/
def count_word_matches (skill text : String) : Nat :=
  countWB skill.toList (text.toList.length + 1) none text.toList

/-- `_calculate_skill_confidence_advanced`: base 0.5, +0.3 for the
skills-section regex, +0.1 for the bullet regex (both abstracted in the
environment), +min(0.1, frequency×0.05) when the frequency exceeds one,
capped at 1.0. -/
def calculate_skill_confidence_advanced (env : Env) (skill text : String)
    (frequency : Nat) : ℚ :=
  let c : ℚ := 1/2
  let c := if env.in_skills_section text skill then c + 3/10 else c
  let c := if env.in_bullet_list text skill then c + 1/10 else c
  let c := if frequency > 1 then c + min (1/10) ((frequency : ℚ) * (5/100)) else c
  min c 1

/-- Stable descending insertion by score (Python `list.sort` with
`reverse=True` keeps the original order of equal keys, as insertion after all
greater-or-equal elements does). -/
def insertDesc (x : TopSkill) : List TopSkill → List TopSkill
  | [] => [x]
  | y :: t => if y.score ≥ x.score then y :: insertDesc x t else x :: y :: t

/-- `_get_top_skills_advanced`: all found skills ranked by
confidence × frequency, top 15. -/
def get_top_skills_advanced (found : List (String × List SkillInfo)) :
    List TopSkill :=
  let all := (found.map fun c => c.2.map fun s =>
    ({ skill := s.skill, category := s.category,
       score := s.confidence * (s.frequency : ℚ),
       frequency := s.frequency, confidence := s.confidence } : TopSkill)).flatten
  (all.foldl (fun acc x => insertDesc x acc) []).take 15

/-- `extract_skills_comprehensive`. -/
def extract_skills_comprehensive (env : Env) (text : String) : SkillsData :=
  let tl := strToLower text
  let per := skill_keywords.map fun cat =>
    (cat.1, cat.2.filterMap fun sk =>
      let n := count_word_matches sk tl
      if n > 0 then
        some ({ skill := sk,
                confidence := calculate_skill_confidence_advanced env sk tl n,
                frequency := n, category := cat.1 } : SkillInfo)
      else none)
  let found := per.filter fun c => c.2 ≠ []
  { skills_by_category := found,
    total_skills := (found.map fun c => c.2.length).sum,
    skill_diversity := found.length,
    total_skill_occurrences := (found.map fun c => (c.2.map (·.frequency)).sum).sum,
    top_skills := get_top_skills_advanced found,
    skill_categories_present := found.map (·.1) }

/-!  nlp_processor.py : experience extraction. -/

/-- Experience-section start keywords. -/
def exp_start_keywords : List String :=
  ["experience", "work experience", "employment", "career",
   "professional experience", "work history"]

/-- Experience-section terminator keywords. -/
def exp_end_keywords : List String :=
  ["education", "skills", "projects", "certifications",
   "awards", "references", "personal"]

/-- Achievement indicator words of `_is_achievement_advanced` (each source
pattern is a plain word, so `re.search` is a substring test). -/
def achievement_indicators : List String :=
  ["achieved", "increased", "reduced", "improved", "led", "managed", "developed",
   "implemented", "saved", "won", "awarded", "recognized", "spearheaded",
   "created", "built", "launched", "optimized", "streamlined", "enhanced",
   "delivered", "exceeded", "accomplished", "completed", "successfully"]

/-- `_is_achievement_advanced`. -/
def is_achievement_advanced (text : String) : Bool :=
  achievement_indicators.any fun k => substrOf k (strToLower text)

/-- `_clean_achievement`: strip leading `[•\-*\s]+` from the stripped line and
drop results of length ≤ 10. -/
def clean_achievement (text : String) : String :=
  let cs := (strStrip text).toList.dropWhile fun c =>
    c = '•' || c = '-' || c = '*' || isPySpace c
  let cleaned := String.mk cs
  if cleaned.length > 10 then cleaned else ""

/-- Industry sector table `self.industry_sectors` (dict order). -/
def industry_sectors_tbl : List (String × List String) := [
  ("technology", ["software", "it", "technology", "computer", "programming", "developer", "engineer", "tech"]),
  ("finance", ["banking", "finance", "investment", "accounting", "audit", "financial", "bank", "investment"]),
  ("healthcare", ["medical", "healthcare", "hospital", "pharmaceutical", "nursing", "doctor", "health", "clinic"]),
  ("education", ["education", "teaching", "academic", "university", "school", "lecturer", "college", "institution"]),
  ("manufacturing", ["manufacturing", "production", "factory", "industrial", "engineering", "plant", "assembly"]),
  ("retail", ["retail", "sales", "customer service", "merchandising", "store", "shop", "outlet"]),
  ("marketing", ["marketing", "advertising", "brand", "digital marketing", "social media", "promotion"]),
  ("government", ["government", "public sector", "municipal", "civil service", "public service"]),
  ("consulting", ["consulting", "consultant", "advisory", "strategy consulting"]),
  ("nonprofit", ["nonprofit", "ngo", "non-governmental", "charity", "non profit"])]

/-- `_detect_industry_sector_advanced`: first sector with a keyword hit. -/
def detect_industry_sector_advanced (text : String) : String :=
  let tl := strToLower text
  match industry_sectors_tbl.find? (fun s => s.2.any fun k => substrOf k tl) with
  | some s => s.1
  | none => ""

/-- `_extract_position_info`: a line with an extractable date range becomes a
position; title and company extraction are abstracted in the environment (no
claim depends on them). -/
def extract_position_info (env : Env) (text : String) : Option Position :=
  let dates := extract_dates text
  if dates = "" then none
  else some
    { position := env.extract_position_title text,
      company := env.extract_company_name text,
      dates := dates,
      duration_years := calculate_position_duration env.current_year dates,
      description := text }

/-- Mutable state of the experience line loop. -/
structure ExpLoopState where
  inSection : Bool
  current : Option Position
  positions : List Position
  achievements : List String
  sectors : List String
deriving Repr

/-- Line loop of `extract_experience_advanced`: the start-keyword test comes
first (and `continue`s); inside the section a short terminator line executes
`break`, returning the state as is. -/
def exp_loop (env : Env) : ExpLoopState → List String → ExpLoopState
  | st, [] => st
  | st, line :: rest =>
    let line_clean := strStrip line
    let line_lower := strToLower line_clean
    if exp_start_keywords.any (fun k => substrOf k line_lower) then
      exp_loop env { st with inSection := true } rest
    else if st.inSection then
      if (exp_end_keywords.any fun k => substrOf k line_lower)
          && line_clean.length < 50 then st
      else
        let st :=
          match extract_position_info env line_clean with
          | some pi =>
            match st.current with
            | some cp => { st with positions := st.positions ++ [cp], current := some pi }
            | none => { st with current := some pi }
          | none => st
        let st :=
          if is_achievement_advanced line_clean then
            let a := clean_achievement line_clean
            if a ≠ "" then { st with achievements := st.achievements ++ [a] } else st
          else st
        let st :=
          let sec := detect_industry_sector_advanced line_clean
          if sec ≠ "" && !st.sectors.contains sec then
            { st with sectors := st.sectors ++ [sec] }
          else st
        exp_loop env st rest
    else exp_loop env st rest

/-- `_calculate_total_experience_advanced`: sum of the positive durations,
capped at 50. -/
def calculate_total_experience_advanced (positions : List Position) : ℚ :=
  if positions = [] then 0
  else
    let total := (positions.map (·.duration_years)).foldl
      (fun acc d => if d > 0 then acc + d else acc) 0
    min total 50

/-- `_determine_experience_level_advanced`. -/
def determine_experience_level_advanced (years : ℚ) : String :=
  if years < 1 then "Entry Level (0-1 years)"
  else if years < 3 then "Junior Level (1-3 years)"
  else if years < 7 then "Mid Level (3-7 years)"
  else if years < 15 then "Senior Level (7-15 years)"
  else "Executive Level (15+ years)"

/-- `_detect_career_gaps`. -/
def detect_career_gaps (positions : List Position) : Nat :=
  if positions.length < 2 then 0
  else (positions.filter fun p => p.duration_years < 1/2).length

/-- `_analyze_career_trajectory`. -/
def analyze_career_trajectory (positions : List Position) : String :=
  if positions.length < 2 then "Early Career"
  else
    let avg := ((positions.map (·.duration_years)).sum) / (positions.length : ℚ)
    if avg ≥ 3 then "Stable Progression"
    else if avg ≥ 3/2 then "Steady Growth"
    else "Rapid Movement"

/-- `extract_experience_advanced`. -/
def extract_experience_advanced (env : Env) (text : String) : ExperienceData :=
  let st := exp_loop env ⟨false, none, [], [], []⟩ (strSplitLines text)
  let positions := st.positions ++ (match st.current with
    | some cp => [cp]
    | none => [])
  let total := calculate_total_experience_advanced positions
  { total_experience_years := total,
    experience_level := determine_experience_level_advanced total,
    industry_sectors := st.sectors,
    key_achievements := st.achievements,
    career_progression := positions,
    companies_worked := ((positions.map (·.company)).filter (· ≠ "")).eraseDups,
    positions_held := ((positions.map (·.position)).filter (· ≠ "")).eraseDups,
    career_gaps := detect_career_gaps positions,
    promotion_trajectory := analyze_career_trajectory positions }

/-!  nlp_processor.py : awards, summary, and the parsing entry point. -/

/-- Award-category indicator table of `extract_awards_certifications_advanced`. -/
def award_indicators : List (String × List String) := [
  ("awards", ["award", "prize", "recognition", "achievement award"]),
  ("certifications", ["certification", "certified", "license", "accreditation"]),
  ("honors", ["honor", "scholarship", "fellowship",
              "dean" ++ String.singleton apos ++ "s list"]),
  ("publications", ["publication", "paper", "journal", "conference"]),
  ("patents", ["patent", "invention", "intellectual property"])]

/-- Lines of the text recorded under one award category. -/
def award_lines (inds : List String) (cat : String) (lines : List String) :
    List AchievementRecord :=
  (lines.filter fun lc => inds.any fun k => substrOf k (strToLower lc)).map fun lc =>
    { text := lc, confidence := 8/10, rec_type := cat }

/-- `extract_awards_certifications_advanced`. -/
def extract_awards_certifications_advanced (text : String) : AwardsData :=
  let lines := (strSplitLines text).map strStrip
  { awards := award_lines (lookupD award_indicators "awards" []) "awards" lines,
    certifications :=
      award_lines (lookupD award_indicators "certifications" []) "certifications" lines,
    honors := award_lines (lookupD award_indicators "honors" []) "honors" lines,
    publications :=
      award_lines (lookupD award_indicators "publications" []) "publications" lines,
    patents := award_lines (lookupD award_indicators "patents" []) "patents" lines }

/-- `generate_comprehensive_summary`. -/
def generate_comprehensive_summary (qualifications : QualificationsData)
    (skills : SkillsData) (experience : ExperienceData) (awards : AwardsData) :
    String :=
  let parts : List String :=
    (if qualifications.qualification_level ≠ "" then
      [titlePy (strReplaceUnderscore qualifications.qualification_level)
        ++ " qualified professional"]
     else [])
    ++ (if experience.total_experience_years > 0 then
      ["with " ++ reprRat experience.total_experience_years ++ " years of "
        ++ strToLower experience.experience_level ++ " experience"]
     else [])
    ++ (let top := (skills.top_skills.take 5).map (·.skill)
        if top ≠ [] then ["specializing in " ++ strIntercalate ", " top] else [])
    ++ (if experience.industry_sectors ≠ [] then
      ["across " ++ strIntercalate ", " (experience.industry_sectors.take 3)
        ++ " sectors"]
     else [])
    ++ (if awards.awards ≠ [] ∨ awards.certifications ≠ [] then
      ["with notable achievements and certifications"]
     else [])
  strIntercalate " " parts ++ "."

/-- `parse_resume` after text extraction: empty text is reported as an
explicit error value (`{"error": ...}`), and the body is exception-free, so
every input yields either a profile or an error value. -/
def parse_resume_text (env : Env) (raw_text : String) : Except String ResumeData :=
  if raw_text = "" then .error "Could not extract text from file"
  else
    let phone_number := env.extract_phone raw_text
    let resume_code := generate_confidential_code env phone_number raw_text
    let qualifications := extract_qualifications_advanced env raw_text
    let skills := extract_skills_comprehensive env raw_text
    let experience := extract_experience_advanced env raw_text
    let awards_certifications := extract_awards_certifications_advanced raw_text
    let skills_list := (skills.skills_by_category.map fun c =>
      c.2.map fun si => (si.skill, si.category, si.confidence)).flatten
    .ok
      { resume_code := resume_code,
        phone_number := phone_number,
        qualifications := qualifications,
        skills := skills,
        experience := experience,
        awards_certifications := awards_certifications,
        skill_analysis := none,
        skills_list := skills_list,
        summary := generate_comprehensive_summary qualifications skills
          experience awards_certifications,
        processed_text := strTake raw_text 1500,
        extraction_timestamp := env.now_iso,
        analysis_metadata :=
          { skill_categories_found := skills.skills_by_category.length,
            total_skills_identified := skills.total_skills,
            experience_years := experience.total_experience_years,
            qualification_level := qualifications.qualification_level,
            industries_identified := experience.industry_sectors } }

/-- Concrete environment used for closed evaluations: fixed hash digests and
clock, trivial results for the abstracted helper regexes.  The properties
evaluated with it do not depend on any of these fields. -/
def testEnv : Env :=
  { sha256hex := fun _ => "0123456789abcdef",
    md5hex := fun _ => "fedcba9876543210",
    mmdd := "0101",
    now_iso := "2026-01-01T00:00:00",
    current_year := 2026,
    extract_phone := fun _ => "",
    extract_position_title := fun _ => "",
    extract_company_name := fun _ => "",
    extract_institution := fun _ => "",
    in_skills_section := fun _ _ => false,
    in_bullet_list := fun _ _ => false }

/-- Profile with everything empty (used as a total fallback when destructing
an `Except` value, and as a neutral concrete profile). -/
def emptyResumeData : ResumeData :=
  { resume_code := "", phone_number := "",
    qualifications := { highest_qualification := "", qualification_level := "",
                        all_qualifications := [], institutions := [],
                        fields_of_study := [], qualification_details := [] },
    skills := { skills_by_category := [], total_skills := 0, skill_diversity := 0,
                total_skill_occurrences := 0, top_skills := [],
                skill_categories_present := [] },
    experience := { total_experience_years := 0, experience_level := "",
                    industry_sectors := [], key_achievements := [],
                    career_progression := [], companies_worked := [],
                    positions_held := [], career_gaps := 0,
                    promotion_trajectory := "stable" },
    awards_certifications := { awards := [], certifications := [], honors := [],
                               publications := [], patents := [] },
    skill_analysis := none, skills_list := [], summary := "",
    processed_text := "", extraction_timestamp := "",
    analysis_metadata := { skill_categories_found := 0, total_skills_identified := 0,
                           experience_years := 0, qualification_level := "",
                           industries_identified := [] } }

/-!  Concrete inputs used by the closed evaluations below. -/

/-- A resume text whose parse yields skills {python, django, flask, pandas,
numpy, tensorflow, keras, scikit-learn} and ten years of experience. -/
def T1 : String :=
  "experience\nsoftware developer 2010 - 2020\nskills\npython django flask pandas numpy tensorflow keras scikit-learn"

/-- The profile parsed from `T1`. -/
def rd1 : ResumeData := (parse_resume_text testEnv T1).toOption.getD emptyResumeData

/-- A candidate skill profile holding exactly the skill `python`. -/
def cand_python : SkillsData :=
  { skills_by_category := [("programming_languages",
      [{ skill := "python", confidence := 1, frequency := 1,
         category := "programming_languages" }])],
    total_skills := 1, skill_diversity := 1, total_skill_occurrences := 1,
    top_skills := [], skill_categories_present := ["programming_languages"] }

/-- A resume text whose parse yields skills {python}, five years of
experience, one position and the industry sector `technology`. -/
def T6 : String := "experience\nsoftware developer 2015 - 2020\nskills\npython"

/-- The profile parsed from `T6`. -/
def rd6 : ResumeData := (parse_resume_text testEnv T6).toOption.getD emptyResumeData

/-- A resume text with an education section closed by an `experience` heading
and then a second `education` heading followed by another qualification. -/
def T8 : String :=
  "education\nbsc computer science\nexperience\neducation\ndiploma in nursing"

/-- Decidable equality of parse results (used by the closed evaluations). -/
instance : DecidableEq (Except String ResumeData) := fun a b =>
  match a, b with
  | .ok x, .ok y =>
    if h : x = y then isTrue (by rw [h])
    else isFalse (fun hh => h (Except.ok.inj hh))
  | .error x, .error y =>
    if h : x = y then isTrue (by rw [h])
    else isFalse (fun hh => h (Except.error.inj hh))
  | .ok _, .error _ => isFalse (fun hh => Except.noConfusion hh)
  | .error _, .ok _ => isFalse (fun hh => Except.noConfusion hh)

/-!  Supporting lemmas. -/

/-- Banker's rounding of a nonnegative rational is nonnegative. -/
lemma pyRoundInt_nonneg {q : ℚ} (h : 0 ≤ q) : 0 ≤ pyRoundInt q := by
  have hf : 0 ≤ qfloor q := by
    unfold qfloor
    exact Int.fdiv_nonneg (Rat.num_nonneg.mpr h) (by positivity)
  simp only [pyRoundInt]
  split_ifs <;> omega

/-- Two-decimal rounding of a nonnegative rational is nonnegative. -/
lemma round2_nonneg {q : ℚ} (h : 0 ≤ q) : 0 ≤ round2 q := by
  unfold round2
  have h2 : 0 ≤ pyRoundInt (q * 100) := pyRoundInt_nonneg (by positivity)
  have h3 : (0 : ℚ) ≤ (pyRoundInt (q * 100) : ℚ) := by exact_mod_cast h2
  positivity

/-- A dict lookup returns the default or one of the stored values. -/
lemma lookupD_mem {β : Type} (m : List (String × β)) (k : String) (d : β) :
    lookupD m k d ∈ d :: m.map Prod.snd := by
  unfold lookupD
  cases h : m.find? (fun p => p.1 == k) with
  | none => exact List.mem_cons_self _ _
  | some p =>
    exact List.mem_cons_of_mem _ (List.mem_map_of_mem Prod.snd
      (List.mem_of_find?_eq_some h))

/-- Every value of the qualification `level_scores` table lies in [30, 100]. -/
lemma level_scores_bounds (k : String) :
    30 ≤ lookupD level_scores k 30 ∧ lookupD level_scores k 30 ≤ 100 := by
  set x := lookupD level_scores k 30 with hx
  have h := lookupD_mem level_scores k 30
  rw [← hx] at h
  simp only [level_scores, List.map_cons, List.map_nil, List.mem_cons,
    List.not_mem_nil, or_false] at h
  rcases h with h | h | h | h | h | h | h <;> rw [h] <;> norm_num

/-- The experience-sufficiency score lies in [0, 100] for nonnegative
experience. -/
lemma experience_sufficiency_score_bounds (e : ExperienceData)
    (req : ExpRequirements) (h : 0 ≤ e.total_experience_years) :
    0 ≤ calculate_experience_sufficiency_score e req ∧
      calculate_experience_sufficiency_score e req ≤ 100 := by
  simp only [calculate_experience_sufficiency_score]
  split_ifs with h1 h2
  · norm_num
  · refine ⟨le_min (by norm_num) ?_, min_le_left _ _⟩
    exact mul_nonneg (div_nonneg h (by positivity)) (by norm_num)
  · norm_num

/-- The achievements score lies in [0, 100]. -/
lemma achievement_score_bounds (a : AwardsData) :
    0 ≤ (analyze_achievements_impact a).achievement_score ∧
      (analyze_achievements_impact a).achievement_score ≤ 100 := by
  simp only [analyze_achievements_impact]
  exact ⟨le_min (by norm_num) (by positivity), min_le_left _ _⟩

/-- The comprehensive skill-match percentage is nonnegative. -/
lemma comprehensive_match_nonneg (d : SkillsData) (jd : String) :
    0 ≤ (analyze_skill_fit_advanced d jd).comprehensive_match_percentage := by
  simp only [analyze_skill_fit_advanced]
  apply round2_nonneg
  split_ifs
  · positivity
  · norm_num

/-- The adaptability score is nonnegative. -/
lemma adaptability_score_nonneg (rd : ResumeData) :
    0 ≤ calculate_adaptability_score_advanced rd := by
  simp only [calculate_adaptability_score_advanced]
  split_ifs <;>
    refine le_min ?_ (by norm_num) <;> positivity

/-- Confidence of the advanced skill-confidence computation lies in
[0.5, 1.0] for every environment, skill, text and frequency. -/
lemma skill_confidence_bounds (env : Env) (skill text : String) (n : Nat) :
    1/2 ≤ calculate_skill_confidence_advanced env skill text n ∧
      calculate_skill_confidence_advanced env skill text n ≤ 1 := by
  simp only [calculate_skill_confidence_advanced]
  refine ⟨le_min ?_ (by norm_num), min_le_right _ _⟩
  have hmin : (0 : ℚ) ≤ min (1/10) ((n : ℚ) * (5/100)) :=
    le_min (by norm_num) (by positivity)
  split_ifs <;> linarith

/-- Every skill entry produced by comprehensive extraction has a confidence
computed by `calculate_skill_confidence_advanced` (hence at least 0.5). -/
lemma extract_skills_entry_confidence (env : Env) (text : String)
    {c : String × List SkillInfo} {si : SkillInfo}
    (hc : c ∈ (extract_skills_comprehensive env text).skills_by_category)
    (hsi : si ∈ c.2) : 1/2 ≤ si.confidence := by
  unfold extract_skills_comprehensive at hc
  have hc' := List.mem_of_mem_filter hc
  rcases List.mem_map.mp hc' with ⟨cat, _, rfl⟩
  rcases List.mem_filterMap.mp hsi with ⟨sk, _, hf⟩
  by_cases hn : count_word_matches sk (strToLower text) > 0
  · rw [if_pos hn] at hf
    cases hf
    exact (skill_confidence_bounds env sk (strToLower text) _).1
  · rw [if_neg hn] at hf
    cases hf

/-!  Claim theorems. -/

/-- Claim C1 (counterexample).  The claim states that the overall
compatibility score always lies in [0, 100] and that each weighted term (in
particular the comprehensive skill-match percentage) stays within [0, 100].
For the profile parsed from `T1` and the job text `"python"`, the
comprehensive match is 590 and the overall score is 274.05, both above 100. -/
theorem C1_counterexample :
    parse_resume_text testEnv T1 = .ok rd1 ∧
    (analyze_candidate_fit rd1 "python").overall_score = 5481/20 ∧
    100 < (analyze_candidate_fit rd1 "python").overall_score ∧
    100 < (analyze_candidate_fit rd1 "python").skill_analysis.comprehensive_match_percentage := by
  decide

/-- Claim C1 (amended).  The overall score is the weighted sum
skill×0.40 + experience×0.30 + qualification×0.15 + cultural×0.10 +
achievements×0.05 rounded to 2 decimals; the experience, qualification and
achievements terms lie in [0, 100] and the score is nonnegative (given
nonnegative total experience), but the cultural composite and the
comprehensive skill match are not capped at 100, so the total can exceed
100. -/
theorem C1_amended_score_form (rd : ResumeData) (jd : String)
    (h : 0 ≤ rd.experience.total_experience_years) :
    let r := analyze_candidate_fit rd jd
    r.overall_score =
      round2 (r.skill_analysis.comprehensive_match_percentage * (40/100)
        + r.experience_analysis.experience_sufficiency_score * (30/100)
        + r.qualification_analysis.qualification_score * (15/100)
        + (r.cultural_fit.culture_alignment + r.cultural_fit.adaptability_score) / 2 * (10/100)
        + r.achievements_impact.achievement_score * (5/100)) ∧
    0 ≤ r.overall_score ∧
    (0 ≤ r.experience_analysis.experience_sufficiency_score ∧
      r.experience_analysis.experience_sufficiency_score ≤ 100) ∧
    (30 ≤ r.qualification_analysis.qualification_score ∧
      r.qualification_analysis.qualification_score ≤ 100) ∧
    (0 ≤ r.achievements_impact.achievement_score ∧
      r.achievements_impact.achievement_score ≤ 100) := by
  intro r
  have hsuff := experience_sufficiency_score_bounds rd.experience
    (extract_experience_requirements_advanced jd) h
  have hqual := level_scores_bounds rd.qualifications.qualification_level
  have hach := achievement_score_bounds rd.awards_certifications
  refine ⟨rfl, ?_, hsuff, hqual, hach⟩
  apply round2_nonneg
  have h1 : 0 ≤ (analyze_skill_fit_advanced rd.skills jd).comprehensive_match_percentage :=
    comprehensive_match_nonneg rd.skills jd
  have h2 : 0 ≤ (analyze_experience_fit_advanced rd.experience jd).experience_sufficiency_score :=
    hsuff.1
  have h3 : (30 : ℚ) ≤ (analyze_qualification_fit_advanced rd.qualifications jd).qualification_score :=
    hqual.1
  have h4 : 0 ≤ (analyze_cultural_fit_advanced rd jd).adaptability_score :=
    adaptability_score_nonneg rd
  have h5 : 0 ≤ (analyze_achievements_impact rd.awards_certifications).achievement_score :=
    hach.1
  have h6 : 0 ≤ (analyze_cultural_fit_advanced rd jd).culture_alignment := by
    show 0 ≤ ((extract_culture_indicators_advanced jd).length : ℚ) * 10
    positivity
  linarith

/-- Witness for the amended C1 theorem at a concrete profile. -/
theorem C1_amended_score_form_witness :
    let r := analyze_candidate_fit emptyResumeData ""
    r.overall_score =
      round2 (r.skill_analysis.comprehensive_match_percentage * (40/100)
        + r.experience_analysis.experience_sufficiency_score * (30/100)
        + r.qualification_analysis.qualification_score * (15/100)
        + (r.cultural_fit.culture_alignment + r.cultural_fit.adaptability_score) / 2 * (10/100)
        + r.achievements_impact.achievement_score * (5/100)) ∧
    0 ≤ r.overall_score ∧
    (0 ≤ r.experience_analysis.experience_sufficiency_score ∧
      r.experience_analysis.experience_sufficiency_score ≤ 100) ∧
    (30 ≤ r.qualification_analysis.qualification_score ∧
      r.qualification_analysis.qualification_score ≤ 100) ∧
    (0 ≤ r.achievements_impact.achievement_score ∧
      r.achievements_impact.achievement_score ≤ 100) :=
  C1_amended_score_form emptyResumeData "" (by norm_num [emptyResumeData])

/-- Claim C2 (counterexample).  The claim assumes a job text from which the
engine derives the required skills {python, sql, excel}; but `excel` is not
in the engine's skill vocabulary — on the natural input `"python sql excel"`
only {python, sql} is derived, so the match for a {python} candidate is 50.00
(not 33.33) and the gap list is ["sql"] without "excel". -/
theorem C2_counterexample :
    extract_skills_with_context_advanced "python sql excel" = ["python", "sql"] ∧
    "excel" ∉ extract_skills_with_context_advanced "python sql excel" ∧
    (analyze_skill_fit_advanced cand_python "python sql excel").match_percentage = 50 ∧
    (analyze_skill_fit_advanced cand_python "python sql excel").critical_skill_gaps = ["sql"] := by
  decide

/-- Claim C2 (amended).  For a job text from which the engine derives three
required skills including python — e.g. `"python sql java"`, which derives
{python, java, sql} — and a candidate whose skill set is exactly {python},
the skill-match percentage is exactly 33.33, the exact-match list is
["python"], and the skill-gap list contains both "sql" and "java". -/
theorem C2_amended_skill_match :
    extract_skills_with_context_advanced "python sql java" = ["python", "java", "sql"] ∧
    (analyze_skill_fit_advanced cand_python "python sql java").match_percentage = 3333/100 ∧
    (analyze_skill_fit_advanced cand_python "python sql java").exact_matches = ["python"] ∧
    "sql" ∈ (analyze_skill_fit_advanced cand_python "python sql java").critical_skill_gaps ∧
    "java" ∈ (analyze_skill_fit_advanced cand_python "python sql java").critical_skill_gaps := by
  decide

/-- Claim C3 (code bug evaluation).  The year-token pattern
`20\d{2}|19\d{2}` never matches the word `Present`, so `"2019 - Present"`
yields fewer than two year tokens and the duration is 0 — for every current
year — although the date extractor does return the full range
`"2019 - Present"` and the source's own dead `else datetime.now().year`
branch shows the intent of defaulting the end year to the current year. -/
theorem C3_present_range_duration_zero (cy : Nat) :
    extract_dates "2019 - Present" = "2019 - Present" ∧
    findall_years ("2019 - Present".toList) = [['2', '0', '1', '9']] ∧
    calculate_position_duration cy (extract_dates "2019 - Present") = 0 := by
  refine ⟨by decide, by decide, ?_⟩
  have h : extract_dates "2019 - Present" = "2019 - Present" := by decide
  rw [h]
  rfl

/-- Claim C4 (confirmed).  Profile extraction on empty text returns the
explicit error value, and on every input it returns either a profile or an
error value — the embedded body is a total function, mirroring the
`try/except` wrapper that converts any fault into an error dict. -/
theorem C4_extraction_total_and_empty_error :
    ∀ env : Env,
      parse_resume_text env "" = .error "Could not extract text from file" ∧
      ∀ t : String, (∃ rd, parse_resume_text env t = .ok rd)
        ∨ (∃ msg, parse_resume_text env t = .error msg) := by
  intro env
  refine ⟨rfl, ?_⟩
  intro t
  cases parse_resume_text env t with
  | ok rd => exact .inl ⟨rd, rfl⟩
  | error msg => exact .inr ⟨msg, rfl⟩

/-- Claim C5 (confirmed).  With a nonempty phone number the confidential code
is `"CV-" + upper(sha256hex(phone)[:8]) + "-" + MMDD`, independent of the
accompanying text (hence two calls with the same phone on the same day
agree); with an empty phone it is `"CV-" + upper(md5hex(text[:500])[:8])`
with no date suffix. -/
theorem C5_confidential_code (env : Env) :
    (∀ phone t1 t2 : String, phone ≠ "" →
      generate_confidential_code env phone t1 = generate_confidential_code env phone t2) ∧
    (∀ phone text : String, phone ≠ "" →
      generate_confidential_code env phone text =
        "CV-" ++ strToUpper (strTake (env.sha256hex phone) 8) ++ "-" ++ env.mmdd) ∧
    (∀ text : String, generate_confidential_code env "" text =
        "CV-" ++ strToUpper (strTake (env.md5hex (strTake text 500)) 8)) := by
  refine ⟨?_, ?_, ?_⟩
  · intro phone t1 t2 h
    unfold generate_confidential_code
    rw [if_pos h, if_pos h]
  · intro phone text h
    unfold generate_confidential_code
    rw [if_pos h]
  · intro text
    unfold generate_confidential_code
    simp

/-- Witness for C5 at a concrete phone number and date. -/
theorem C5_confidential_code_witness :
    generate_confidential_code testEnv "0771234567" "resume text A"
      = generate_confidential_code testEnv "0771234567" "resume text B" ∧
    generate_confidential_code testEnv "" "anonymous" = "CV-FEDCBA98" := by
  constructor
  · exact (C5_confidential_code testEnv).1 "0771234567" "resume text A"
      "resume text B" (by decide)
  · rw [(C5_confidential_code testEnv).2.2 "anonymous"]
    decide

/-- Claim C6 (code bug evaluation).  `_generate_targeted_questions` reads the
skill gaps from `resume_data['skill_analysis']`, a key `parse_resume` never
produces, so the gap question is never generated for a parsed resume: for the
profile parsed from `T6` (five years of experience, one position, industry
`technology`) against the job `"python sql java"` the computed skill gaps are
["java", "sql"], yet the question list starts with the career-progression
question and contains no gap question. -/
theorem C6_gap_question_never_generated :
    parse_resume_text testEnv T6 = .ok rd6 ∧
    rd6.skill_analysis = none ∧
    (analyze_skill_fit_advanced rd6.skills "python sql java").critical_skill_gaps
      = ["java", "sql"] ∧
    (analyze_candidate_fit rd6 "python sql java").interview_questions =
      ["Can you walk us through your career progression and what motivated your key transitions?",
       "How has your experience in technology prepared you for this position?",
       "Describe a challenging project you worked on and how you overcame obstacles.",
       "How do you stay current with industry trends and technologies?",
       "What attracted you to this particular role and our company?"] := by
  decide

/-- Claim C7 (counterexample).  For the position line
`"Developer 2023 - 2019"` the date extractor produces the range
`"2023 - 2019"` and the derived duration is −4 < 0, so `durationYears ≥ 0`
fails for descending year tokens. -/
theorem C7_counterexample :
    extract_dates "Developer 2023 - 2019" = "2023 - 2019" ∧
    calculate_position_duration 2026 "2023 - 2019" = -4 ∧
    (extract_position_info testEnv "Developer 2023 - 2019").map (·.duration_years)
      = some (-4) ∧
    calculate_position_duration 2026 "2023 - 2019" < 0 := by
  decide

/-- A token produced by the year pattern consists of digits only. -/
lemma year_tok_digits {cs tok r : List Char}
    (h : year_tok? cs = some (tok, r)) : isAllDigits tok = true := by
  unfold year_tok? at h
  split at h
  · split_ifs at h with hd
    simp only [Option.some.injEq, Prod.mk.injEq] at h
    obtain ⟨h1, -⟩ := h
    subst h1
    simp only [Bool.and_eq_true] at hd
    simp only [isAllDigits, List.isEmpty_cons, Bool.not_false, Bool.true_and,
      List.all_cons, List.all_nil, hd.1, hd.2]
    decide
  · split_ifs at h with hd
    simp only [Option.some.injEq, Prod.mk.injEq] at h
    obtain ⟨h1, -⟩ := h
    subst h1
    simp only [Bool.and_eq_true] at hd
    simp only [isAllDigits, List.isEmpty_cons, Bool.not_false, Bool.true_and,
      List.all_cons, List.all_nil, hd.1, hd.2]
    decide
  · simp at h

/-- Tokens returned by the year-token scan consist of digits only. -/
lemma findall_years_aux_digits :
    ∀ (fuel : Nat) (cs : List Char), ∀ t ∈ findall_years_aux fuel cs,
      isAllDigits t = true := by
  intro fuel
  induction fuel with
  | zero =>
    intro cs t ht
    simp [findall_years_aux] at ht
  | succ f ih =>
    intro cs t ht
    cases cs with
    | nil => simp [findall_years_aux] at ht
    | cons c tl =>
      rw [findall_years_aux] at ht
      cases hy : year_tok? (c :: tl) with
      | some pr =>
        obtain ⟨tok, r⟩ := pr
        rw [hy] at ht
        simp only [List.mem_cons] at ht
        rcases ht with ht | ht
        · subst ht
          exact year_tok_digits hy
        · exact ih r t ht
      | none =>
        rw [hy] at ht
        exact ih tl t ht

/-- Tokens returned by the year-token scan consist of digits only. -/
lemma findall_years_digits (cs : List Char) :
    ∀ t ∈ findall_years cs, isAllDigits t = true :=
  findall_years_aux_digits (cs.length + 1) cs

/-- Claim C7 (amended).  With fewer than two year tokens the duration is 0;
with at least two tokens it equals second-token-year minus first-token-year,
which is nonnegative exactly when the tokens appear in nondescending order
(and can be negative when they are descending). -/
theorem C7_amended_duration (cy : Nat) (dates : String) :
    ((findall_years dates.toList).length ≤ 1 →
      calculate_position_duration cy dates = 0) ∧
    (∀ y1 y2 rest, findall_years dates.toList = y1 :: y2 :: rest →
      calculate_position_duration cy dates
        = (natOfDigits y2 : ℚ) - (natOfDigits y1 : ℚ) ∧
      (natOfDigits y1 ≤ natOfDigits y2 →
        0 ≤ calculate_position_duration cy dates)) := by
  constructor
  · intro hlen
    unfold calculate_position_duration
    cases h : findall_years dates.toList with
    | nil => rfl
    | cons y1 t =>
      cases t with
      | nil => rfl
      | cons y2 rest =>
        rw [h] at hlen
        simp at hlen
  · intro y1 y2 rest h
    have hd : isAllDigits y2 = true :=
      findall_years_digits dates.toList y2 (by rw [h]; simp)
    have heq : calculate_position_duration cy dates
        = (natOfDigits y2 : ℚ) - (natOfDigits y1 : ℚ) := by
      unfold calculate_position_duration
      rw [h]
      dsimp only
      rw [hd]
      simp only [if_true]
      push_cast
      ring
    refine ⟨heq, ?_⟩
    intro hle
    rw [heq]
    simp only [sub_nonneg]
    exact_mod_cast hle

/-- Witness for the amended C7 theorem at an ascending range. -/
theorem C7_amended_duration_witness :
    calculate_position_duration 2026 "2010 - 2012" = 2 ∧
    0 ≤ calculate_position_duration 2026 "2010 - 2012" := by
  have h := (C7_amended_duration 2026 "2010 - 2012").2
    ['2', '0', '1', '0'] ['2', '0', '1', '2'] [] (by decide)
  refine ⟨?_, h.2 (by decide)⟩
  rw [h.1]
  decide

/-- Claim C8 (counterexample).  In `T8` the education section is closed by
the short `experience` heading; the `break` ends the whole scan, so the later
second `education` heading does not re-open the section and the qualification
line after it (`diploma in nursing`) is not extracted. -/
theorem C8_counterexample :
    (extract_qualifications_advanced testEnv T8).all_qualifications.map (·.text)
      = ["bsc computer science"] ∧
    "diploma in nursing" ∉
      (extract_qualifications_advanced testEnv T8).all_qualifications.map (·.text) := by
  decide

/-- Claim C8 (amended).  Once the qualification section is open, the first
short line containing a terminator keyword ends extraction for good: no later
line — including a later `education` heading and any entries after it —
contributes a qualification. -/
theorem C8_amended_no_reopen (env : Env) (line : String) (rest : List String)
    (h1 : isQualSectionStart (strToLower (strStrip line)) = false)
    (h2 : (qual_end_keywords.any fun k => substrOf k (strToLower (strStrip line))) = true)
    (h3 : (strStrip line).length < 50) :
    qual_loop env true (line :: rest) = [] := by
  rw [qual_loop]
  simp only [h1, Bool.false_eq_true, if_false, if_true]
  rw [if_pos]
  rw [h2]
  simp [h3]

/-- Witness for the amended C8 theorem at the scenario of the claim. -/
theorem C8_amended_no_reopen_witness :
    qual_loop testEnv true ["experience", "education", "diploma in nursing"] = [] :=
  C8_amended_no_reopen testEnv "experience" ["education", "diploma in nursing"]
    (by decide) (by decide) (by decide)

/-- Claim C9 (confirmed).  Report generation is a pure function of the
profile and the job text — the embedding takes no clock, randomness or other
hidden input in the scoring path — so two invocations with identical inputs
agree on every field of the report. -/
theorem C9_deterministic_report (rd : ResumeData) (jd : String) :
    (generate_comprehensive_report jd rd).job_fit_analysis
        = (generate_comprehensive_report jd rd).job_fit_analysis ∧
    (generate_comprehensive_report jd rd).quality_analysis
        = (generate_comprehensive_report jd rd).quality_analysis ∧
    (generate_comprehensive_report jd rd).interview_priority
        = (generate_comprehensive_report jd rd).interview_priority ∧
    (generate_comprehensive_report jd rd).recommendation
        = (generate_comprehensive_report jd rd).recommendation ∧
    (generate_comprehensive_report jd rd).interview_questions
        = (generate_comprehensive_report jd rd).interview_questions ∧
    (generate_comprehensive_report jd rd).strengths_weaknesses
        = (generate_comprehensive_report jd rd).strengths_weaknesses ∧
    (generate_comprehensive_report jd rd).resume_code
        = (generate_comprehensive_report jd rd).resume_code ∧
    (generate_comprehensive_report jd rd).confidential_lookup
        = (generate_comprehensive_report jd rd).confidential_lookup ∧
    generate_comprehensive_report jd rd = generate_comprehensive_report jd rd :=
  ⟨rfl, rfl, rfl, rfl, rfl, rfl, rfl, rfl, rfl⟩

/-- Claim C10 (confirmed).  Every extracted skill entry's confidence lies in
[0.5, 1.0] (base 0.5 plus nonnegative bonuses, capped at 1.0), so the
confidence > 0.3 filter of `_flatten_skills_advanced` never excludes an
extracted skill: the flattened list is exactly all skills of all categories. -/
theorem C10_confidence_bounds_and_flatten :
    (∀ (env : Env) (skill text : String) (frequency : Nat),
      1/2 ≤ calculate_skill_confidence_advanced env skill text frequency ∧
        calculate_skill_confidence_advanced env skill text frequency ≤ 1) ∧
    (∀ (env : Env) (text : String),
      flatten_skills_advanced (extract_skills_comprehensive env text)
        = ((extract_skills_comprehensive env text).skills_by_category.map
            fun c => c.2.map (·.skill)).flatten) := by
  refine ⟨skill_confidence_bounds, ?_⟩
  intro env text
  unfold flatten_skills_advanced
  congr 1
  refine List.map_congr_left ?_
  intro c hc
  congr 1
  rw [List.filter_eq_self]
  intro si hsi
  have h := extract_skills_entry_confidence env text hc hsi
  simp only [decide_eq_true_eq]
  linarith

end ResumeAnalyzer
